import Mathlib

/-!
Shallow embedding of the TACL Terraform provider's reconciliation core
(repository lbrlabs/terraform-provider-tacl, package provider).

The embedding models, per resource kind, the Create/Read/Update/Delete
handlers and the per-kind HTTP helper functions, faithfully translated
from the Go source.  HTTP exchanges are modelled through an explicit
transport function from requests to responses; each operation returns
the list of requests it issued, the state outcome it produced
(set / RemoveResource / untouched) and its diagnostics.
-/

namespace Tacl

/-- JSON values as produced and consumed by the provider's use of
encoding/json (strings, booleans, integers, arrays, objects, null). -/
inductive Json where
  | null
  | bool (b : Bool)
  | num (n : Int)
  | str (s : String)
  | arr (xs : List Json)
  | obj (fields : List (String × Json))
deriving Repr

/-- HTTP methods used by the provider. -/
inductive Method where
  | get
  | post
  | put
  | delete
deriving Repr, DecidableEq

/-- An outgoing HTTP request: method, full URL and optional JSON body,
exactly the data the Go helpers pass to http.NewRequestWithContext. -/
structure Request where
  method : Method
  url : String
  body : Option Json
deriving Repr

/-- A response from the remote service: status code and JSON body. -/
structure HttpResponse where
  status : Nat
  body : Json
deriving Repr

/-- A stub remote service: answers every request with a response. -/
def Transport : Type := Request → HttpResponse

mutual

/-- Compact rendering of a JSON value, used where the Go code turns a
response body into the text of an error message (io.ReadAll + string). -/
def Json.render : Json → String
  | .null => "null"
  | .bool true => "true"
  | .bool false => "false"
  | .num n => toString n
  | .str s => "\x22" ++ s ++ "\x22"
  | .arr xs => "[" ++ Json.renderArr xs ++ "]"
  | .obj fs => "\x7b" ++ Json.renderObj fs ++ "\x7d"

def Json.renderArr : List Json → String
  | [] => ""
  | [x] => Json.render x
  | x :: y :: xs => Json.render x ++ "," ++ Json.renderArr (y :: xs)

def Json.renderObj : List (String × Json) → String
  | [] => ""
  | [(k, v)] => "\x22" ++ k ++ "\x22:" ++ Json.render v
  | (k, v) :: f :: fs =>
      "\x22" ++ k ++ "\x22:" ++ Json.render v ++ "," ++ Json.renderObj (f :: fs)

end

/-- Result of one of the per-kind Go HTTP helpers
(doSSHIDRequest, doNodeAttrRequest, doPostureRequest, doSingleObjectReq,
doRequest, doACLIDRequest, doDERPMapDSRequest): either the response body
bytes, a typed *NotFoundError value, or a generic error built with
fmt.Errorf.  The two error constructors keep the distinction that Go
makes through the error's dynamic type. -/
inductive HelperResult where
  | success (body : Json)
  | notFoundErr (msg : String)
  | genericErr (msg : String)
deriving Repr

/-- Translation of the Go predicate isNotFound (and its twin IsNotFound):
a type assertion err.(*NotFoundError), true exactly on typed
NotFoundError values. -/
def isNotFound : HelperResult → Bool
  | .notFoundErr _ => true
  | _ => false

/-- Common body of doSSHIDRequest, doNodeAttrRequest, doPostureRequest,
doSingleObjectReq, doRequest, doACLIDRequest: send the request, then map
status 404 to a typed NotFoundError carrying the kind-specific message,
any other status at or above 300 to a generic formatted error carrying
the status and body, and anything else to the body bytes.  The Go
functions differ only in the two message strings. -/
def classifiedRequest (t : Transport) (nfMsg errIntro : String)
    (method : Method) (url : String) (payload : Option Json) : HelperResult :=
  let resp := t { method := method, url := url, body := payload }
  if resp.status == 404 then
    .notFoundErr nfMsg
  else if 300 ≤ resp.status then
    .genericErr (errIntro ++ toString resp.status ++ ": " ++ Json.render resp.body)
  else
    .success resp.body

/-- Go helper doSSHIDRequest from ssh_resource.go. -/
def doSSHIDRequest (t : Transport) (method : Method) (url : String)
    (payload : Option Json) : HelperResult :=
  classifiedRequest t "SSH rule not found" "TACL returned " method url payload

/-- Go helper doNodeAttrRequest from nodeattr_resource.go. -/
def doNodeAttrRequest (t : Transport) (method : Method) (url : String)
    (payload : Option Json) : HelperResult :=
  classifiedRequest t "nodeattr not found" "TACL returned " method url payload

/-- Go helper doACLIDRequest from acl_resource.go. -/
def doACLIDRequest (t : Transport) (method : Method) (url : String)
    (payload : Option Json) : HelperResult :=
  classifiedRequest t "ACL not found" "TACL returned " method url payload

/-- Go helper doPostureRequest from posture_resource.go. -/
def doPostureRequest (t : Transport) (method : Method) (url : String)
    (payload : Option Json) : HelperResult :=
  classifiedRequest t "posture not found" "TACL returned " method url payload

/-- Go helper doSingleObjectReq from auto_approvers_resource.go, shared by
the single-object kinds (auto-approvers, settings, raw DERP map). -/
def doSingleObjectReq (t : Transport) (method : Method) (url : String)
    (payload : Option Json) : HelperResult :=
  classifiedRequest t "object not found" "TACL returned " method url payload

/-- Go helper doRequest from group_resource.go. -/
def doRequest (t : Transport) (method : Method) (url : String)
    (payload : Option Json) : HelperResult :=
  classifiedRequest t "group not found" "Tacl returned " method url payload

/-- Go helper doDERPMapDSRequest from the typed DERP-map data source
(provider.go).  Unlike every other helper in the package it maps status
404 to a plain formatted error fmt.Errorf with text NotFound, not to a
typed NotFoundError value. -/
def doDERPMapDSRequest (t : Transport) (url : String) : HelperResult :=
  let resp := t { method := .get, url := url, body := none }
  if resp.status == 404 then
    .genericErr "NotFound"
  else if 300 ≤ resp.status then
    .genericErr ("DERPMap DS returned " ++ toString resp.status ++ ": " ++
      Json.render resp.body)
  else
    .success resp.body

/-- Terraform framework types.String: null, unknown, or a known value. -/
inductive TfString where
  | null
  | unknown
  | val (s : String)
deriving Repr, DecidableEq

/-- Go types.String.IsNull. -/
def TfString.isNull : TfString → Bool
  | .null => true
  | _ => false

/-- Go types.String.ValueString: the known value, or the empty string for
null and unknown. -/
def TfString.valueString : TfString → String
  | .val s => s
  | _ => ""

/-- Terraform framework types.List with string element type: null,
unknown, a list of known strings, or a list whose ElementsAs decoding
fails (elements of an unexpected type). -/
inductive TfList where
  | null
  | unknown
  | valid (xs : List String)
  | malformed
deriving Repr, DecidableEq

/-- Terraform framework types.Map with list-of-string element type:
null, unknown, a known map, or a map whose ElementsAs decoding fails. -/
inductive TfMap where
  | null
  | unknown
  | valid (m : List (String × List String))
  | malformed
deriving Repr, DecidableEq

/-- One entry of resp.Diagnostics: the summary and detail strings passed
to AddError. -/
structure Diag where
  summary : String
  detail : String
deriving Repr, DecidableEq

/-- What a handler did to the stored state: wrote a new value with
resp.State.Set, removed the resource with resp.State.RemoveResource, or
returned leaving the stored state untouched. -/
inductive StateOutcome (M : Type) where
  | set (m : M)
  | removed
  | untouched
deriving Repr

/-- The observable effect of one handler invocation: the HTTP requests
it issued in order, the state outcome, and the diagnostics it added. -/
structure OpResult (M : Type) where
  requests : List Request
  state : StateOutcome M
  diags : List Diag
deriving Repr

/-- Whitespace skipping for the JSON text grammar. -/
def skipWs : List Char → List Char
  | c :: cs =>
      if c = ' ' ∨ c = '\t' ∨ c = '\n' ∨ c = '\r' then skipWs cs else c :: cs
  | [] => []

/-- Body of a JSON string literal after the opening quote, up to the
closing quote (escape sequences are outside the modelled subset). -/
def parseStrBody : List Char → Option (String × List Char)
  | [] => none
  | c :: cs =>
      if c = '\x22' then some ("", cs)
      else if c = '\\' then none
      else match parseStrBody cs with
        | some (s, r) => some (c.toString ++ s, r)
        | none => none

/-- Decimal digit run for JSON integer literals. -/
def parseDigits : List Char → Nat → (Nat × List Char)
  | c :: cs, acc =>
      if c.isDigit then parseDigits cs (acc * 10 + (c.toNat - 48)) else (0, [])
  | [], acc => (acc, [])

/-- Digit run that stops at the first non-digit. -/
def takeDigits : List Char → (List Char × List Char)
  | [] => ([], [])
  | c :: cs =>
      if c.isDigit then
        let (ds, r) := takeDigits cs
        (c :: ds, r)
      else ([], c :: cs)

/-- Numeric value of a digit list. -/
def digitsToNat : List Char → Nat
  | ds => ds.foldl (fun acc c => acc * 10 + (c.toNat - 48)) 0

mutual

/-- Fuel-indexed parser of JSON text.  This models the grammar accepted
by Go's encoding/json for the subset the provider round-trips through
string attributes: null, true, false, integers, strings without escape
sequences, arrays and objects. -/
def parseVal : Nat → List Char → Option (Json × List Char)
  | 0, _ => none
  | fuel + 1, input =>
      match skipWs input with
      | [] => none
      | c :: rest =>
          if c = '\x22' then
            match parseStrBody rest with
            | some (s, r) => some (Json.str s, r)
            | none => none
          else if c = '[' then
            match skipWs rest with
            | ']' :: r => some (Json.arr [], r)
            | r => match parseArrElems fuel r with
              | some (xs, r') => some (Json.arr xs, r')
              | none => none
          else if c = '\x7b' then
            match skipWs rest with
            | '\x7d' :: r => some (Json.obj [], r)
            | r => match parseObjFields fuel r with
              | some (fs, r') => some (Json.obj fs, r')
              | none => none
          else if c = 't' then
            match rest with
            | 'r' :: 'u' :: 'e' :: r => some (Json.bool true, r)
            | _ => none
          else if c = 'f' then
            match rest with
            | 'a' :: 'l' :: 's' :: 'e' :: r => some (Json.bool false, r)
            | _ => none
          else if c = 'n' then
            match rest with
            | 'u' :: 'l' :: 'l' :: r => some (Json.null, r)
            | _ => none
          else if c = '-' then
            match takeDigits rest with
            | ([], _) => none
            | (ds, r) => some (Json.num (-(digitsToNat ds : Int)), r)
          else if c.isDigit then
            match takeDigits (c :: rest) with
            | ([], _) => none
            | (ds, r) => some (Json.num (digitsToNat ds), r)
          else none

/-- Comma-separated array elements, ending at the closing bracket. -/
def parseArrElems : Nat → List Char → Option (List Json × List Char)
  | 0, _ => none
  | fuel + 1, input =>
      match parseVal fuel input with
      | none => none
      | some (v, r) =>
          match skipWs r with
          | ',' :: r' =>
              match parseArrElems fuel r' with
              | some (xs, r'') => some (v :: xs, r'')
              | none => none
          | ']' :: r' => some ([v], r')
          | _ => none

/-- Comma-separated object members, ending at the closing brace. -/
def parseObjFields : Nat → List Char → Option (List (String × Json) × List Char)
  | 0, _ => none
  | fuel + 1, input =>
      match skipWs input with
      | '\x22' :: r =>
          match parseStrBody r with
          | none => none
          | some (k, r') =>
              match skipWs r' with
              | ':' :: r'' =>
                  match parseVal fuel r'' with
                  | none => none
                  | some (v, r3) =>
                      match skipWs r3 with
                      | ',' :: r4 =>
                          match parseObjFields fuel r4 with
                          | some (fs, r5) => some ((k, v) :: fs, r5)
                          | none => none
                      | '\x7d' :: r4 => some ([(k, v)], r4)
                      | _ => none
              | _ => none
      | _ => none

end

/-- The modelled json.Unmarshal of a whole string into an interface
value: parse the text and require nothing but whitespace to follow. -/
def jsonParse (s : String) : Option Json :=
  match parseVal (s.length + 1) s.toList with
  | some (v, rest) => if skipWs rest = [] then some v else none
  | none => none

/-- The modelled json.Unmarshal of a string into map[string]interface: a
parse failure or a non-object non-null document is an error, a null
document leaves the map nil, and an object yields its fields. -/
def goUnmarshalObj (s : String) : Except Unit (Option (List (String × Json))) :=
  match jsonParse s with
  | some Json.null => .ok none
  | some (Json.obj fs) => .ok (some fs)
  | _ => .error ()

/-- First binding of a key inside a decoded JSON object. -/
def lookupField (fs : List (String × Json)) (k : String) : Option Json :=
  (fs.find? (fun p => p.1 = k)).map Prod.snd

/-- Unmarshalling a struct field of Go type string: absent or null keeps
the zero value, a string is taken as is, anything else is a type error. -/
def decodeStrField (fs : List (String × Json)) (k : String) : Except Unit String :=
  match lookupField fs k with
  | none => .ok ""
  | some Json.null => .ok ""
  | some (Json.str s) => .ok s
  | some _ => .error ()

/-- Unmarshalling a JSON array of strings into a Go string slice. -/
def decodeStrList : Json → Except Unit (List String)
  | Json.arr xs =>
      xs.foldr (fun x acc =>
        match x, acc with
        | Json.str s, .ok ss => .ok (s :: ss)
        | _, _ => .error ()) (.ok [])
  | _ => .error ()

/-- Unmarshalling a struct field of Go type string slice: absent or null
keeps the nil slice, an array of strings is converted, anything else is
a type error. -/
def decodeStrListField (fs : List (String × Json)) (k : String) :
    Except Unit (List String) :=
  match lookupField fs k with
  | none => .ok []
  | some Json.null => .ok []
  | some v => decodeStrList v

/-- Unmarshalling a struct field of Go type map-to-interface: absent or
null keeps the nil map, an object yields its fields, anything else is a
type error. -/
def decodeObjField (fs : List (String × Json)) (k : String) :
    Except Unit (Option (List (String × Json))) :=
  match lookupField fs k with
  | none => .ok none
  | some Json.null => .ok none
  | some (Json.obj gs) => .ok (some gs)
  | some _ => .error ()

/-- Unmarshalling a struct field of Go type map from string to string
slice (the routes of ACLAutoApprovers and the default posture body). -/
def decodeStrListMapField (fs : List (String × Json)) (k : String) :
    Except Unit (Option (List (String × List String))) :=
  match lookupField fs k with
  | none => .ok none
  | some Json.null => .ok none
  | some (Json.obj gs) =>
      (gs.foldr
        (fun (p : String × Json) (acc : Except Unit (List (String × List String))) =>
          match decodeStrList p.2, acc with
          | .ok ss, .ok m => .ok ((p.1, ss) :: m)
          | _, _ => .error ())
        (.ok [])).map (fun m => some m)
  | some _ => .error ()

/-- Go toStringSlice (and its alias toGoStringSlice): convert a slice of
framework strings to Go strings via ValueString. -/
def toStringSlice (arr : List TfString) : List String :=
  arr.map TfString.valueString

/-- Go toTerraformStringSlice: convert Go strings to framework strings. -/
def toTerraformStringSlice (ss : List String) : List TfString :=
  ss.map TfString.val

/-- Go toStringTypeSlice: convert decoded interface values to framework
strings, substituting null for any non-string element. -/
def toStringTypeSlice (xs : List Json) : List TfString :=
  xs.map (fun v => match v with
    | Json.str s => TfString.val s
    | _ => TfString.null)

/-- Go listToStringSlice (equally listToGoStrings): a null or unknown
framework list yields the nil slice with no error, a well-typed list
yields its strings, and a failing ElementsAs decode yields an error. -/
def listToStringSlice : TfList → Except String (Option (List String))
  | TfList.null => .ok none
  | TfList.unknown => .ok none
  | TfList.valid xs => .ok (some xs)
  | TfList.malformed => .error "cannot convert List to []string"

/-- Go toStringSliceMap: null or unknown yields the empty map; a failing
ElementsAs decode is swallowed and also yields the empty map (the source
comments this as returning empty on decode failure); a well-typed map is
converted entrywise. -/
def toStringSliceMap : TfMap → List (String × List String)
  | TfMap.null => []
  | TfMap.unknown => []
  | TfMap.malformed => []
  | TfMap.valid m => m

/-- Go toTerraformMapOfStringList: a nil Go map becomes the null
framework map, any other map is converted entrywise (the MapValueFrom
error branch is unreachable for string-list elements). -/
def toTerraformMapOfStringList : Option (List (String × List String)) → TfMap
  | none => TfMap.null
  | some m => TfMap.valid m

/-- Go stringSliceToList (equally goStringsToList, toStringListValue):
building a framework list from Go strings; the diagnostics branch is
unreachable for string elements, so the conversion always succeeds. -/
def stringSliceToList (ss : List String) : TfList :=
  TfList.valid ss

-- ---------------------------------------------------------------------------
-- nodeattr resource (nodeattr_resource.go)
-- ---------------------------------------------------------------------------

/-- Terraform model of the nodeattr resource: stable ID, target list,
attr list and the app_json string. -/
structure NodeattrModel where
  id : TfString
  target : TfList
  attr : TfList
  appJson : TfString
deriving Repr

/-- Go NodeAttrGrantInput: the create/update request payload.  The
target slice has no omitempty and distinguishes nil from empty; attr and
app are omitted from the JSON when empty. -/
structure NodeAttrGrantInput where
  target : Option (List String)
  attr : List String
  app : Option (List (String × Json))
deriving Repr

/-- JSON encoding of NodeAttrGrantInput following the struct tags:
target always present (null when nil), attr present when non-empty, app
present when a non-empty map. -/
def encodeNodeAttrGrantInput (i : NodeAttrGrantInput) : Json :=
  Json.obj (
    [("target", match i.target with
      | none => Json.null
      | some xs => Json.arr (xs.map Json.str))]
    ++ (if i.attr.isEmpty then [] else [("attr", Json.arr (i.attr.map Json.str))])
    ++ (match i.app with
      | none => []
      | some fs => if fs.isEmpty then [] else [("app", Json.obj fs)]))

/-- Go NodeAttrResponse: the server's nodeattr object. -/
structure NodeAttrResponse where
  id : String
  target : List String
  attr : List String
  app : Option (List (String × Json))
deriving Repr

/-- json.Unmarshal of a response body into NodeAttrResponse. -/
def decodeNodeAttrResponse : Json → Except Unit NodeAttrResponse
  | Json.obj fs => do
      let id ← decodeStrField fs "id"
      let tgt ← decodeStrListField fs "target"
      let att ← decodeStrListField fs "attr"
      let app ← decodeObjField fs "app"
      pure ⟨id, tgt, att, app⟩
  | Json.null => .ok ⟨"", [], [], none⟩
  | _ => .error ()

/-- The state-filling block that Create, Read and Update of the nodeattr
resource each repeat verbatim: overwrite ID and target from the server
response, then either take the attr list (clearing app_json), or the app
document (clearing attr), or clear both. -/
def nodeattrFillFromResponse (m : NodeattrModel) (resp : NodeAttrResponse) :
    NodeattrModel :=
  let m1 := { m with
    id := TfString.val resp.id,
    target := stringSliceToList resp.target }
  if resp.attr.length > 0 then
    { m1 with attr := stringSliceToList resp.attr, appJson := TfString.null }
  else
    match resp.app with
    | some fs =>
        { m1 with
          appJson := TfString.val (Json.render (Json.obj fs)),
          attr := TfList.valid [] }
    | none => { m1 with attr := TfList.valid [], appJson := TfString.null }

/-- The populated test for the attr group, as nodeattr Create and
Update both compute it: the converted attr slice is non-empty. -/
def nodeattrHasAttr (attrSlice : Option (List String)) : Bool :=
  (attrSlice.getD []).length > 0

/-- The populated test for the app_json group: the string is neither
null nor empty. -/
def nodeattrHasApp (appJson : TfString) : Bool :=
  !appJson.isNull && appJson.valueString != ""

/-- The payload-building block shared verbatim by nodeattr Create and
Update: convert target and attr, enforce that exactly one of attr and
app_json is set, and build the grant input, forcing target to the
wildcard sentinel when the app document is active.  Errors are the
diagnostics the Go code adds before returning. -/
def buildNodeattrInput (plan : NodeattrModel) : Except Diag NodeAttrGrantInput :=
  match listToStringSlice plan.target with
  | .error e => .error ⟨"Error reading target", e⟩
  | .ok targetSlice =>
  match listToStringSlice plan.attr with
  | .error e => .error ⟨"Error reading attr", e⟩
  | .ok attrSlice =>
  let hasAttr := nodeattrHasAttr attrSlice
  let hasApp := nodeattrHasApp plan.appJson
  if (hasAttr && hasApp) || (!hasAttr && !hasApp) then
    .error ⟨"Invalid config", "Exactly one of `attr` or `app_json` must be set."⟩
  else if hasAttr then
    .ok ⟨targetSlice, attrSlice.getD [], none⟩
  else
    match goUnmarshalObj plan.appJson.valueString with
    | .error _ => .error ⟨"Invalid app_json", "invalid JSON document"⟩
    | .ok app => .ok ⟨some ["*"], [], app⟩

/-- Go (r *nodeattrResource) Create: POST /nodeattrs. -/
def nodeattrCreate (ep : String) (t : Transport) (plan : NodeattrModel) :
    OpResult NodeattrModel :=
  match buildNodeattrInput plan with
  | .error d => ⟨[], .untouched, [d]⟩
  | .ok input =>
    let url := ep ++ "/nodeattrs"
    let body := encodeNodeAttrGrantInput input
    let sd : StateOutcome NodeattrModel × List Diag :=
      match doNodeAttrRequest t .post url (some body) with
      | .notFoundErr msg => (.untouched, [⟨"Create nodeattr error", msg⟩])
      | .genericErr msg => (.untouched, [⟨"Create nodeattr error", msg⟩])
      | .success respBody =>
        match decodeNodeAttrResponse respBody with
        | .error _ =>
            (.untouched, [⟨"Parse create response error", "parse error"⟩])
        | .ok created => (.set (nodeattrFillFromResponse plan created), [])
    ⟨[⟨.post, url, some body⟩], sd.1, sd.2⟩

/-- Go (r *nodeattrResource) Read: GET /nodeattrs/:id, removing the
resource when the stored ID is empty or the server answers 404. -/
def nodeattrRead (ep : String) (t : Transport) (state : NodeattrModel) :
    OpResult NodeattrModel :=
  let id := state.id.valueString
  if id = "" then ⟨[], .removed, []⟩
  else
    let url := ep ++ "/nodeattrs/" ++ id
    let sd : StateOutcome NodeattrModel × List Diag :=
      match doNodeAttrRequest t .get url none with
      | .notFoundErr _ => (.removed, [])
      | .genericErr msg => (.untouched, [⟨"Read nodeattr error", msg⟩])
      | .success respBody =>
        match decodeNodeAttrResponse respBody with
        | .error _ =>
            (.untouched, [⟨"Parse read response error", "parse error"⟩])
        | .ok fetched => (.set (nodeattrFillFromResponse state fetched), [])
    ⟨[⟨.get, url, none⟩], sd.1, sd.2⟩

/-- The id+grant envelope nodeattr Update sends to PUT /nodeattrs. -/
def nodeattrUpdateEnvelope (id : String) (input : NodeAttrGrantInput) : Json :=
  Json.obj [("id", Json.str id), ("grant", encodeNodeAttrGrantInput input)]

/-- Go (r *nodeattrResource) Update: PUT /nodeattrs with an id+grant
envelope, keeping the ID from prior state. -/
def nodeattrUpdate (ep : String) (t : Transport)
    (oldState plan0 : NodeattrModel) : OpResult NodeattrModel :=
  let plan := { plan0 with id := oldState.id }
  let id := plan.id.valueString
  if id = "" then ⟨[], .removed, []⟩
  else
    match buildNodeattrInput plan with
    | .error d => ⟨[], .untouched, [d]⟩
    | .ok input =>
      let payload := nodeattrUpdateEnvelope id input
      let url := ep ++ "/nodeattrs"
      let sd : StateOutcome NodeattrModel × List Diag :=
        match doNodeAttrRequest t .put url (some payload) with
        | .notFoundErr _ => (.removed, [])
        | .genericErr msg => (.untouched, [⟨"Update nodeattr error", msg⟩])
        | .success respBody =>
          match decodeNodeAttrResponse respBody with
          | .error _ =>
              (.untouched, [⟨"Parse update response error", "parse error"⟩])
          | .ok updated => (.set (nodeattrFillFromResponse plan updated), [])
      ⟨[⟨.put, url, some payload⟩], sd.1, sd.2⟩

/-- Go (r *nodeattrResource) Delete: DELETE /nodeattrs with an id body;
a 404 means already gone and still falls through to RemoveResource. -/
def nodeattrDelete (ep : String) (t : Transport) (data : NodeattrModel) :
    OpResult NodeattrModel :=
  let id := data.id.valueString
  if id = "" then ⟨[], .removed, []⟩
  else
    let payload := Json.obj [("id", Json.str id)]
    let url := ep ++ "/nodeattrs"
    let sd : StateOutcome NodeattrModel × List Diag :=
      match doNodeAttrRequest t .delete url (some payload) with
      | .notFoundErr _ => (.removed, [])
      | .genericErr msg => (.untouched, [⟨"Delete nodeattr error", msg⟩])
      | .success _ => (.removed, [])
    ⟨[⟨.delete, url, some payload⟩], sd.1, sd.2⟩

-- ---------------------------------------------------------------------------
-- ssh resource (ssh_resource.go)
-- ---------------------------------------------------------------------------

/-- Terraform model of the ssh resource. -/
structure SshModel where
  id : TfString
  action : TfString
  src : List TfString
  dst : List TfString
  users : List TfString
  checkPeriod : TfString
  acceptEnv : List TfString
deriving Repr

/-- Go TaclSSHEntry: the user-facing SSH rule fields. -/
structure TaclSSHEntry where
  action : String
  src : List String
  dst : List String
  users : List String
  checkPeriod : String
  acceptEnv : List String
deriving Repr

/-- JSON encoding of TaclSSHEntry per its struct tags (no omitempty). -/
def encodeTaclSSHEntry (e : TaclSSHEntry) : Json :=
  Json.obj
    [("action", Json.str e.action),
     ("src", Json.arr (e.src.map Json.str)),
     ("dst", Json.arr (e.dst.map Json.str)),
     ("users", Json.arr (e.users.map Json.str)),
     ("checkPeriod", Json.str e.checkPeriod),
     ("acceptEnv", Json.arr (e.acceptEnv.map Json.str))]

/-- The TaclSSHEntry a handler builds from its plan, shared verbatim by
ssh Create and Update. -/
def sshEntryOfPlan (plan : SshModel) : TaclSSHEntry :=
  ⟨plan.action.valueString, toStringSlice plan.src, toStringSlice plan.dst,
   toStringSlice plan.users, plan.checkPeriod.valueString,
   toStringSlice plan.acceptEnv⟩

/-- Go TaclSSHResponse: server-assigned ID plus the inlined entry. -/
structure TaclSSHResponse where
  id : String
  action : String
  src : List String
  dst : List String
  users : List String
  checkPeriod : String
  acceptEnv : List String
deriving Repr

/-- json.Unmarshal of a response body into TaclSSHResponse. -/
def decodeTaclSSHResponse : Json → Except Unit TaclSSHResponse
  | Json.obj fs => do
      let id ← decodeStrField fs "id"
      let action ← decodeStrField fs "action"
      let src ← decodeStrListField fs "src"
      let dst ← decodeStrListField fs "dst"
      let users ← decodeStrListField fs "users"
      let cp ← decodeStrField fs "checkPeriod"
      let ae ← decodeStrListField fs "acceptEnv"
      pure ⟨id, action, src, dst, users, cp, ae⟩
  | Json.null => .ok ⟨"", "", [], [], [], "", []⟩
  | _ => .error ()

/-- The state-filling block ssh Create, Read and Update each repeat:
every model field is overwritten from the server response. -/
def sshFillFromResponse (m : SshModel) (r : TaclSSHResponse) : SshModel :=
  { m with
    id := TfString.val r.id,
    action := TfString.val r.action,
    src := toTerraformStringSlice r.src,
    dst := toTerraformStringSlice r.dst,
    users := toTerraformStringSlice r.users,
    checkPeriod := TfString.val r.checkPeriod,
    acceptEnv := toTerraformStringSlice r.acceptEnv }

/-- Go (r *sshResource) Create: POST /ssh. -/
def sshCreate (ep : String) (t : Transport) (plan : SshModel) :
    OpResult SshModel :=
  let body := encodeTaclSSHEntry (sshEntryOfPlan plan)
  let url := ep ++ "/ssh"
  let sd : StateOutcome SshModel × List Diag :=
    match doSSHIDRequest t .post url (some body) with
    | .notFoundErr msg => (.untouched, [⟨"Create SSH error", msg⟩])
    | .genericErr msg => (.untouched, [⟨"Create SSH error", msg⟩])
    | .success respBody =>
      match decodeTaclSSHResponse respBody with
      | .error _ =>
          (.untouched, [⟨"Parse create response error", "parse error"⟩])
      | .ok created => (.set (sshFillFromResponse plan created), [])
  ⟨[⟨.post, url, some body⟩], sd.1, sd.2⟩

/-- Go (r *sshResource) Read: GET /ssh/:id, removing the resource when
the stored ID is null or empty or the server answers 404. -/
def sshRead (ep : String) (t : Transport) (state : SshModel) :
    OpResult SshModel :=
  if state.id.isNull || state.id.valueString == "" then ⟨[], .removed, []⟩
  else
    let id := state.id.valueString
    let url := ep ++ "/ssh/" ++ id
    let sd : StateOutcome SshModel × List Diag :=
      match doSSHIDRequest t .get url none with
      | .notFoundErr _ => (.removed, [])
      | .genericErr msg => (.untouched, [⟨"Read SSH error", msg⟩])
      | .success respBody =>
        match decodeTaclSSHResponse respBody with
        | .error _ =>
            (.untouched, [⟨"Parse read response error", "parse error"⟩])
        | .ok fetched => (.set (sshFillFromResponse state fetched), [])
    ⟨[⟨.get, url, none⟩], sd.1, sd.2⟩

/-- The id+rule envelope ssh Update sends to PUT /ssh, built inline by
the Go code as a nested map. -/
def sshUpdateEnvelope (id : String) (input : TaclSSHEntry) : Json :=
  Json.obj
    [("id", Json.str id),
     ("rule", Json.obj
       [("action", Json.str input.action),
        ("src", Json.arr (input.src.map Json.str)),
        ("dst", Json.arr (input.dst.map Json.str)),
        ("users", Json.arr (input.users.map Json.str)),
        ("checkPeriod", Json.str input.checkPeriod),
        ("acceptEnv", Json.arr (input.acceptEnv.map Json.str))])]

/-- Go (r *sshResource) Update: PUT /ssh with an id+rule envelope; the
ID is merged from prior state before anything else. -/
def sshUpdate (ep : String) (t : Transport) (oldState plan0 : SshModel) :
    OpResult SshModel :=
  let plan := { plan0 with id := oldState.id }
  let id := plan.id.valueString
  if id = "" then ⟨[], .removed, []⟩
  else
    let input := sshEntryOfPlan plan
    let payload := sshUpdateEnvelope id input
    let url := ep ++ "/ssh"
    let sd : StateOutcome SshModel × List Diag :=
      match doSSHIDRequest t .put url (some payload) with
      | .notFoundErr _ => (.removed, [])
      | .genericErr msg => (.untouched, [⟨"Update SSH error", msg⟩])
      | .success respBody =>
        match decodeTaclSSHResponse respBody with
        | .error _ =>
            (.untouched, [⟨"Parse update response error", "parse error"⟩])
        | .ok updated => (.set (sshFillFromResponse plan updated), [])
    ⟨[⟨.put, url, some payload⟩], sd.1, sd.2⟩

/-- Go (r *sshResource) Delete: DELETE /ssh with an id body; a 404 means
already gone and still falls through to RemoveResource. -/
def sshDelete (ep : String) (t : Transport) (data : SshModel) :
    OpResult SshModel :=
  let id := data.id.valueString
  if id = "" then ⟨[], .removed, []⟩
  else
    let payload := Json.obj [("id", Json.str id)]
    let url := ep ++ "/ssh"
    let sd : StateOutcome SshModel × List Diag :=
      match doSSHIDRequest t .delete url (some payload) with
      | .notFoundErr _ => (.removed, [])
      | .genericErr msg => (.untouched, [⟨"Delete SSH error", msg⟩])
      | .success _ => (.removed, [])
    ⟨[⟨.delete, url, some payload⟩], sd.1, sd.2⟩

-- ---------------------------------------------------------------------------
-- acl resource (acl_resource.go)
-- ---------------------------------------------------------------------------

/-- Terraform model of the acl resource. -/
structure AclModel where
  id : TfString
  action : TfString
  src : List TfString
  proto : TfString
  dst : List TfString
deriving Repr

/-- Go TaclACLEntry, encoded per its struct tags (proto has omitempty). -/
def encodeTaclACLEntry (action : String) (src : List String) (proto : String)
    (dst : List String) : Json :=
  Json.obj (
    [("action", Json.str action), ("src", Json.arr (src.map Json.str))]
    ++ (if proto = "" then [] else [("proto", Json.str proto)])
    ++ [("dst", Json.arr (dst.map Json.str))])

/-- Go TaclACLResponse: server-assigned ID plus the embedded entry. -/
structure TaclACLResponse where
  id : String
  action : String
  src : List String
  proto : String
  dst : List String
deriving Repr

/-- json.Unmarshal of a response body into TaclACLResponse. -/
def decodeTaclACLResponse : Json → Except Unit TaclACLResponse
  | Json.obj fs => do
      let id ← decodeStrField fs "id"
      let action ← decodeStrField fs "action"
      let src ← decodeStrListField fs "src"
      let proto ← decodeStrField fs "proto"
      let dst ← decodeStrListField fs "dst"
      pure ⟨id, action, src, proto, dst⟩
  | Json.null => .ok ⟨"", "", [], "", []⟩
  | _ => .error ()

/-- The state-filling block acl Create, Read and Update each repeat. -/
def aclFillFromResponse (m : AclModel) (r : TaclACLResponse) : AclModel :=
  { m with
    id := TfString.val r.id,
    action := TfString.val r.action,
    src := toTerraformStringSlice r.src,
    proto := TfString.val r.proto,
    dst := toTerraformStringSlice r.dst }

/-- Go (r *aclResource) Read: GET /acls/:id. -/
def aclRead (ep : String) (t : Transport) (state : AclModel) :
    OpResult AclModel :=
  if state.id.isNull || state.id.valueString == "" then ⟨[], .removed, []⟩
  else
    let id := state.id.valueString
    let url := ep ++ "/acls/" ++ id
    let sd : StateOutcome AclModel × List Diag :=
      match doACLIDRequest t .get url none with
      | .notFoundErr _ => (.removed, [])
      | .genericErr msg => (.untouched, [⟨"Read ACL error", msg⟩])
      | .success respBody =>
        match decodeTaclACLResponse respBody with
        | .error _ =>
            (.untouched, [⟨"Parse read response error", "parse error"⟩])
        | .ok fetched => (.set (aclFillFromResponse state fetched), [])
    ⟨[⟨.get, url, none⟩], sd.1, sd.2⟩

/-- The id+entry envelope acl Update sends to PUT /acls. -/
def aclUpdateEnvelope (id : String) (entry : Json) : Json :=
  Json.obj [("id", Json.str id), ("entry", entry)]

/-- Go (r *aclResource) Update: PUT /acls with an id+entry envelope; the
ID is merged from prior state before anything else. -/
def aclUpdate (ep : String) (t : Transport) (oldState plan0 : AclModel) :
    OpResult AclModel :=
  let plan := { plan0 with id := oldState.id }
  let id := plan.id.valueString
  if id = "" then ⟨[], .removed, []⟩
  else
    let entry := encodeTaclACLEntry plan.action.valueString
      (toStringSlice plan.src) plan.proto.valueString (toStringSlice plan.dst)
    let payload := aclUpdateEnvelope id entry
    let url := ep ++ "/acls"
    let sd : StateOutcome AclModel × List Diag :=
      match doACLIDRequest t .put url (some payload) with
      | .notFoundErr _ => (.removed, [])
      | .genericErr msg => (.untouched, [⟨"Update ACL error", msg⟩])
      | .success respBody =>
        match decodeTaclACLResponse respBody with
        | .error _ =>
            (.untouched, [⟨"Parse update response error", "parse error"⟩])
        | .ok updated => (.set (aclFillFromResponse plan updated), [])
    ⟨[⟨.put, url, some payload⟩], sd.1, sd.2⟩

/-- Go (r *aclResource) Delete: DELETE /acls with an id body. -/
def aclDelete (ep : String) (t : Transport) (data : AclModel) :
    OpResult AclModel :=
  let id := data.id.valueString
  if id = "" then ⟨[], .removed, []⟩
  else
    let payload := Json.obj [("id", Json.str id)]
    let url := ep ++ "/acls"
    let sd : StateOutcome AclModel × List Diag :=
      match doACLIDRequest t .delete url (some payload) with
      | .notFoundErr _ => (.removed, [])
      | .genericErr msg => (.untouched, [⟨"Delete ACL error", msg⟩])
      | .success _ => (.removed, [])
    ⟨[⟨.delete, url, some payload⟩], sd.1, sd.2⟩

-- ---------------------------------------------------------------------------
-- group resource (group_resource.go)
-- ---------------------------------------------------------------------------

/-- Terraform model of the group resource: the ID stores the name. -/
structure GroupModel where
  id : TfString
  name : TfString
  members : List TfString
deriving Repr

/-- json.Unmarshal of a response body into map[string]interface: any
object succeeds, a null document leaves the nil map. -/
def decodeAnyObj : Json → Except Unit (List (String × Json))
  | Json.obj fs => .ok fs
  | Json.null => .ok []
  | _ => .error ()

/-- The name+members payload the group handlers build from their plan. -/
def groupPayload (m : GroupModel) : Json :=
  Json.obj
    [("name", Json.str m.name.valueString),
     ("members", Json.arr ((toStringSlice m.members).map Json.str))]

/-- Go (r *groupResource) Read: GET /groups/:name; members are replaced
only when the response carries a members array, otherwise the previously
stored members persist. -/
def groupRead (ep : String) (t : Transport) (data : GroupModel) :
    OpResult GroupModel :=
  let name := data.name.valueString
  let url := ep ++ "/groups/" ++ name
  let sd : StateOutcome GroupModel × List Diag :=
    match doRequest t .get url none with
    | .notFoundErr _ => (.removed, [])
    | .genericErr msg => (.untouched, [⟨"Read group error", msg⟩])
    | .success respBody =>
      match decodeAnyObj respBody with
      | .error _ =>
          (.untouched, [⟨"Error parsing read response", "parse error"⟩])
      | .ok fs =>
        let base := { data with id := TfString.val name, name := TfString.val name }
        let final := match lookupField fs "members" with
          | some (Json.arr xs) => { base with members := toStringTypeSlice xs }
          | _ => base
        (.set final, [])
  ⟨[⟨.get, url, none⟩], sd.1, sd.2⟩

/-- Go (r *groupResource) Update: PUT /groups built from the plan alone;
prior state is never consulted and the plan's name becomes the ID. -/
def groupUpdate (ep : String) (t : Transport) (plan : GroupModel) :
    OpResult GroupModel :=
  let payload := groupPayload plan
  let url := ep ++ "/groups"
  let sd : StateOutcome GroupModel × List Diag :=
    match doRequest t .put url (some payload) with
    | .notFoundErr _ => (.removed, [])
    | .genericErr msg => (.untouched, [⟨"Update group error", msg⟩])
    | .success respBody =>
      match decodeAnyObj respBody with
      | .error _ =>
          (.untouched, [⟨"Error parsing update response", "parse error"⟩])
      | .ok fs =>
        let withMembers := match lookupField fs "members" with
          | some (Json.arr xs) => { plan with members := toStringTypeSlice xs }
          | _ => plan
        (.set { withMembers with id := withMembers.name }, [])
  ⟨[⟨.put, url, some payload⟩], sd.1, sd.2⟩

/-- Go (r *groupResource) Delete: DELETE /groups with a name body. -/
def groupDelete (ep : String) (t : Transport) (data : GroupModel) :
    OpResult GroupModel :=
  let payload := Json.obj [("name", Json.str data.name.valueString)]
  let url := ep ++ "/groups"
  let sd : StateOutcome GroupModel × List Diag :=
    match doRequest t .delete url (some payload) with
    | .notFoundErr _ => (.removed, [])
    | .genericErr msg => (.untouched, [⟨"Delete group error", msg⟩])
    | .success _ => (.removed, [])
  ⟨[⟨.delete, url, some payload⟩], sd.1, sd.2⟩

-- ---------------------------------------------------------------------------
-- posture resource (posture_resource.go)
-- ---------------------------------------------------------------------------

/-- Terraform model of the posture resource; the name "default" routes
to the fixed default sub-path. -/
structure PostureModel where
  id : TfString
  name : TfString
  rules : TfList
deriving Repr

/-- Encoding of a Go string slice field without omitempty: nil encodes
as null, anything else as an array. -/
def encodeStrSlice : Option (List String) → Json
  | none => Json.null
  | some xs => Json.arr (xs.map Json.str)

/-- Go defaultPosturePayload: the bare field list sent to the default
posture sub-path, with no name wrapper. -/
def defaultPosturePayload (rules : Option (List String)) : Json :=
  Json.obj [("defaultSourcePosture", encodeStrSlice rules)]

/-- Go postureUpdatePayload (same shape as postureCreatePayload): the
name+rules envelope for named postures. -/
def postureUpdatePayload (name : String) (rules : Option (List String)) : Json :=
  Json.obj [("name", Json.str name), ("rules", encodeStrSlice rules)]

/-- json.Unmarshal of a named-posture response body. -/
def decodePostureNamed : Json → Except Unit (String × List String)
  | Json.obj fs => do
      let name ← decodeStrField fs "name"
      let rules ← decodeStrListField fs "rules"
      pure (name, rules)
  | Json.null => .ok ("", [])
  | _ => .error ()

/-- json.Unmarshal of a default-posture response body into a map from
string to string slice. -/
def decodeStrListMap : Json → Except Unit (List (String × List String))
  | Json.obj gs =>
      gs.foldr
        (fun (p : String × Json) (acc : Except Unit (List (String × List String))) =>
          match decodeStrList p.2, acc with
          | .ok ss, .ok m => .ok ((p.1, ss) :: m)
          | _, _ => .error ())
        (.ok [])
  | Json.null => .ok []
  | _ => .error ()

/-- Go (r *postureResource) Read: GET /postures/default for the default
posture, GET /postures/:name otherwise; only the rules are refreshed. -/
def postureRead (ep : String) (t : Transport) (state : PostureModel) :
    OpResult PostureModel :=
  let name := state.name.valueString
  if name = "" then ⟨[], .removed, []⟩
  else if name = "default" then
    let url := ep ++ "/postures/default"
    let sd : StateOutcome PostureModel × List Diag :=
      match doPostureRequest t .get url none with
      | .notFoundErr _ => (.removed, [])
      | .genericErr msg => (.untouched, [⟨"Read default posture error", msg⟩])
      | .success respBody =>
        match decodeStrListMap respBody with
        | .error _ =>
            (.untouched, [⟨"Parse default posture error", "parse error"⟩])
        | .ok fetched =>
          let rules := ((fetched.find? (fun p => p.1 = "defaultSourcePosture")).map
            Prod.snd).getD []
          (.set { state with rules := stringSliceToList rules }, [])
    ⟨[⟨.get, url, none⟩], sd.1, sd.2⟩
  else
    let url := ep ++ "/postures/" ++ name
    let sd : StateOutcome PostureModel × List Diag :=
      match doPostureRequest t .get url none with
      | .notFoundErr _ => (.removed, [])
      | .genericErr msg => (.untouched, [⟨"Read named posture error", msg⟩])
      | .success respBody =>
        match decodePostureNamed respBody with
        | .error _ =>
            (.untouched, [⟨"Parse named posture error", "parse error"⟩])
        | .ok fetched =>
          (.set { state with rules := stringSliceToList fetched.2 }, [])
    ⟨[⟨.get, url, none⟩], sd.1, sd.2⟩

/-- Go (r *postureResource) Update: PUT /postures/default with the bare
defaultSourcePosture payload for the default posture, PUT /postures with
the name+rules envelope otherwise. -/
def postureUpdate (ep : String) (t : Transport)
    (oldState plan : PostureModel) : OpResult PostureModel :=
  let _ := oldState
  let name := plan.name.valueString
  match listToStringSlice plan.rules with
  | .error e => ⟨[], .untouched, [⟨"Rules conversion error", e⟩]⟩
  | .ok rules =>
    if name = "default" then
      let payload := defaultPosturePayload rules
      let url := ep ++ "/postures/default"
      let sd : StateOutcome PostureModel × List Diag :=
        match doPostureRequest t .put url (some payload) with
        | .notFoundErr _ => (.removed, [])
        | .genericErr msg =>
            (.untouched, [⟨"Update default posture error", msg⟩])
        | .success _ => (.set { plan with id := plan.name }, [])
      ⟨[⟨.put, url, some payload⟩], sd.1, sd.2⟩
    else
      let payload := postureUpdatePayload name rules
      let url := ep ++ "/postures"
      let sd : StateOutcome PostureModel × List Diag :=
        match doPostureRequest t .put url (some payload) with
        | .notFoundErr _ => (.removed, [])
        | .genericErr msg =>
            (.untouched, [⟨"Update named posture error", msg⟩])
        | .success respBody =>
          match decodePostureNamed respBody with
          | .error _ =>
              (.untouched, [⟨"Parse update response error", "parse error"⟩])
          | .ok updated =>
              (.set { plan with id := TfString.val updated.1 }, [])
      ⟨[⟨.put, url, some payload⟩], sd.1, sd.2⟩

/-- Go (r *postureResource) Delete: DELETE /postures/default with no
body for the default posture, DELETE /postures with a name body
otherwise; a 404 still falls through to RemoveResource. -/
def postureDelete (ep : String) (t : Transport) (data : PostureModel) :
    OpResult PostureModel :=
  let name := data.name.valueString
  if name = "" then ⟨[], .removed, []⟩
  else if name = "default" then
    let url := ep ++ "/postures/default"
    let sd : StateOutcome PostureModel × List Diag :=
      match doPostureRequest t .delete url none with
      | .notFoundErr _ => (.removed, [])
      | .genericErr msg =>
          (.untouched, [⟨"Delete default posture error", msg⟩])
      | .success _ => (.removed, [])
    ⟨[⟨.delete, url, none⟩], sd.1, sd.2⟩
  else
    let payload := Json.obj [("name", Json.str name)]
    let url := ep ++ "/postures"
    let sd : StateOutcome PostureModel × List Diag :=
      match doPostureRequest t .delete url (some payload) with
      | .notFoundErr _ => (.removed, [])
      | .genericErr msg =>
          (.untouched, [⟨"Delete named posture error", msg⟩])
      | .success _ => (.removed, [])
    ⟨[⟨.delete, url, some payload⟩], sd.1, sd.2⟩

-- ---------------------------------------------------------------------------
-- auto-approvers resource (auto_approvers_resource.go)
-- ---------------------------------------------------------------------------

/-- Terraform model of the single auto-approvers object. -/
structure AutoApproversModel where
  id : TfString
  routes : TfMap
  exitNode : List TfString
deriving Repr

/-- JSON encoding of tsclient.ACLAutoApprovers as the provider sends it:
the routes map and the exitNode list. -/
def encodeACLAutoApprovers (routes : List (String × List String))
    (exitNode : List String) : Json :=
  Json.obj
    [("routes", Json.obj (routes.map (fun p => (p.1, Json.arr (p.2.map Json.str))))),
     ("exitNode", Json.arr (exitNode.map Json.str))]

/-- json.Unmarshal of a response body into tsclient.ACLAutoApprovers. -/
def decodeACLAutoApprovers :
    Json → Except Unit (Option (List (String × List String)) × List String)
  | Json.obj fs => do
      let routes ← decodeStrListMapField fs "routes"
      let exitNode ← decodeStrListField fs "exitNode"
      pure (routes, exitNode)
  | Json.null => .ok (none, [])
  | _ => .error ()

/-- Go (r *autoApproversResource) Create: POST /autoapprovers; a routes
map whose decode fails is silently sent as the empty map. -/
def autoApproversCreate (ep : String) (t : Transport)
    (data : AutoApproversModel) : OpResult AutoApproversModel :=
  let body := encodeACLAutoApprovers (toStringSliceMap data.routes)
    (toStringSlice data.exitNode)
  let url := ep ++ "/autoapprovers"
  let sd : StateOutcome AutoApproversModel × List Diag :=
    match doSingleObjectReq t .post url (some body) with
    | .notFoundErr msg => (.untouched, [⟨"Create error", msg⟩])
    | .genericErr msg => (.untouched, [⟨"Create error", msg⟩])
    | .success respBody =>
      match decodeACLAutoApprovers respBody with
      | .error _ =>
          (.untouched, [⟨"Error parse create response", "parse error"⟩])
      | .ok created =>
          (.set { data with
            id := TfString.val "autoapprovers",
            routes := toTerraformMapOfStringList created.1,
            exitNode := toTerraformStringSlice created.2 }, [])
  ⟨[⟨.post, url, some body⟩], sd.1, sd.2⟩

/-- Go (r *autoApproversResource) Read: GET /autoapprovers. -/
def autoApproversRead (ep : String) (t : Transport)
    (data : AutoApproversModel) : OpResult AutoApproversModel :=
  let url := ep ++ "/autoapprovers"
  let sd : StateOutcome AutoApproversModel × List Diag :=
    match doSingleObjectReq t .get url none with
    | .notFoundErr _ => (.removed, [])
    | .genericErr msg => (.untouched, [⟨"Read error", msg⟩])
    | .success respBody =>
      match decodeACLAutoApprovers respBody with
      | .error _ => (.untouched, [⟨"Parse read error", "parse error"⟩])
      | .ok fetched =>
          (.set { data with
            id := TfString.val "autoapprovers",
            routes := toTerraformMapOfStringList fetched.1,
            exitNode := toTerraformStringSlice fetched.2 }, [])
  ⟨[⟨.get, url, none⟩], sd.1, sd.2⟩

-- ---------------------------------------------------------------------------
-- typed DERP-map data source (provider.go, second section)
-- ---------------------------------------------------------------------------

/-- Decoding a response body into tsclient.ACLDERPMap; the model retains
the raw document since the typed fields play no role in the verified
properties. -/
def decodeDERPMapBody : Json → Except Unit Json
  | Json.obj fs => .ok (Json.obj fs)
  | Json.null => .ok Json.null
  | _ => .error ()

/-- Go (d *derpMapDataSource) Read: GET /derpmap through
doDERPMapDSRequest, intending an empty result on not-found; the decoded
document stands in for the typed state it populates. -/
def derpMapDSRead (ep : String) (t : Transport) : OpResult Json :=
  let url := ep ++ "/derpmap"
  let sd : StateOutcome Json × List Diag :=
    match doDERPMapDSRequest t url with
    | .notFoundErr _ => (.untouched, [])
    | .genericErr msg =>
        (.untouched, [⟨"DERPMap data source read error", msg⟩])
    | .success respBody =>
      match decodeDERPMapBody respBody with
      | .error _ =>
          (.untouched, [⟨"DERPMap data source read error", "decode DS response"⟩])
      | .ok dm => (.set dm, [])
  ⟨[⟨.get, url, none⟩], sd.1, sd.2⟩

-- ---------------------------------------------------------------------------
-- Theorems
-- ---------------------------------------------------------------------------

/-- C1: for every resource-kind Read operation (nodeattr, ssh, acl,
group, posture in both its default and named routes, auto-approvers), a
404 response to the HTTP GET makes the operation remove the resource
from stored state with no error diagnostic, while any other failing
status (at least 300 and different from 404) leaves the state untouched
and surfaces an error. -/
theorem read_notfound_drops_state_without_error (ep : String) (t : Transport) :
    (∀ s : NodeattrModel,
      (t ⟨.get, ep ++ "/nodeattrs/" ++ s.id.valueString, none⟩).status = 404 →
      (nodeattrRead ep t s).state = .removed ∧ (nodeattrRead ep t s).diags = [])
  ∧ (∀ s : NodeattrModel,
      s.id.valueString ≠ "" →
      300 ≤ (t ⟨.get, ep ++ "/nodeattrs/" ++ s.id.valueString, none⟩).status →
      (t ⟨.get, ep ++ "/nodeattrs/" ++ s.id.valueString, none⟩).status ≠ 404 →
      (nodeattrRead ep t s).state = .untouched ∧ (nodeattrRead ep t s).diags ≠ [])
  ∧ (∀ s : SshModel,
      (t ⟨.get, ep ++ "/ssh/" ++ s.id.valueString, none⟩).status = 404 →
      (sshRead ep t s).state = .removed ∧ (sshRead ep t s).diags = [])
  ∧ (∀ s : SshModel,
      s.id.isNull = false → s.id.valueString ≠ "" →
      300 ≤ (t ⟨.get, ep ++ "/ssh/" ++ s.id.valueString, none⟩).status →
      (t ⟨.get, ep ++ "/ssh/" ++ s.id.valueString, none⟩).status ≠ 404 →
      (sshRead ep t s).state = .untouched ∧ (sshRead ep t s).diags ≠ [])
  ∧ (∀ s : AclModel,
      (t ⟨.get, ep ++ "/acls/" ++ s.id.valueString, none⟩).status = 404 →
      (aclRead ep t s).state = .removed ∧ (aclRead ep t s).diags = [])
  ∧ (∀ s : AclModel,
      s.id.isNull = false → s.id.valueString ≠ "" →
      300 ≤ (t ⟨.get, ep ++ "/acls/" ++ s.id.valueString, none⟩).status →
      (t ⟨.get, ep ++ "/acls/" ++ s.id.valueString, none⟩).status ≠ 404 →
      (aclRead ep t s).state = .untouched ∧ (aclRead ep t s).diags ≠ [])
  ∧ (∀ s : GroupModel,
      (t ⟨.get, ep ++ "/groups/" ++ s.name.valueString, none⟩).status = 404 →
      (groupRead ep t s).state = .removed ∧ (groupRead ep t s).diags = [])
  ∧ (∀ s : GroupModel,
      300 ≤ (t ⟨.get, ep ++ "/groups/" ++ s.name.valueString, none⟩).status →
      (t ⟨.get, ep ++ "/groups/" ++ s.name.valueString, none⟩).status ≠ 404 →
      (groupRead ep t s).state = .untouched ∧ (groupRead ep t s).diags ≠ [])
  ∧ (∀ s : PostureModel,
      s.name.valueString = "default" →
      (t ⟨.get, ep ++ "/postures/default", none⟩).status = 404 →
      (postureRead ep t s).state = .removed ∧ (postureRead ep t s).diags = [])
  ∧ (∀ s : PostureModel,
      s.name.valueString = "default" →
      300 ≤ (t ⟨.get, ep ++ "/postures/default", none⟩).status →
      (t ⟨.get, ep ++ "/postures/default", none⟩).status ≠ 404 →
      (postureRead ep t s).state = .untouched ∧ (postureRead ep t s).diags ≠ [])
  ∧ (∀ s : PostureModel,
      s.name.valueString ≠ "" → s.name.valueString ≠ "default" →
      (t ⟨.get, ep ++ "/postures/" ++ s.name.valueString, none⟩).status = 404 →
      (postureRead ep t s).state = .removed ∧ (postureRead ep t s).diags = [])
  ∧ (∀ s : PostureModel,
      s.name.valueString ≠ "" → s.name.valueString ≠ "default" →
      300 ≤ (t ⟨.get, ep ++ "/postures/" ++ s.name.valueString, none⟩).status →
      (t ⟨.get, ep ++ "/postures/" ++ s.name.valueString, none⟩).status ≠ 404 →
      (postureRead ep t s).state = .untouched ∧ (postureRead ep t s).diags ≠ [])
  ∧ (∀ s : AutoApproversModel,
      (t ⟨.get, ep ++ "/autoapprovers", none⟩).status = 404 →
      (autoApproversRead ep t s).state = .removed ∧
        (autoApproversRead ep t s).diags = [])
  ∧ (∀ s : AutoApproversModel,
      300 ≤ (t ⟨.get, ep ++ "/autoapprovers", none⟩).status →
      (t ⟨.get, ep ++ "/autoapprovers", none⟩).status ≠ 404 →
      (autoApproversRead ep t s).state = .untouched ∧
        (autoApproversRead ep t s).diags ≠ []) := by
  refine ⟨?_, ?_, ?_, ?_, ?_, ?_, ?_, ?_, ?_, ?_, ?_, ?_, ?_, ?_⟩
  · intro s h
    by_cases hid : s.id.valueString = "" <;>
      simp [nodeattrRead, doNodeAttrRequest, classifiedRequest, hid, h]
  · intro s hid h300 h404
    simp [nodeattrRead, doNodeAttrRequest, classifiedRequest, hid, h300, h404]
  · intro s h
    by_cases hnull : s.id.isNull <;> by_cases hid : s.id.valueString = "" <;>
      simp [sshRead, doSSHIDRequest, classifiedRequest, hnull, hid, h]
  · intro s hnull hid h300 h404
    simp [sshRead, doSSHIDRequest, classifiedRequest, hnull, hid, h300, h404]
  · intro s h
    by_cases hnull : s.id.isNull <;> by_cases hid : s.id.valueString = "" <;>
      simp [aclRead, doACLIDRequest, classifiedRequest, hnull, hid, h]
  · intro s hnull hid h300 h404
    simp [aclRead, doACLIDRequest, classifiedRequest, hnull, hid, h300, h404]
  · intro s h
    simp [groupRead, doRequest, classifiedRequest, h]
  · intro s h300 h404
    simp [groupRead, doRequest, classifiedRequest, h300, h404]
  · intro s hd h
    simp [postureRead, doPostureRequest, classifiedRequest, hd, h]
  · intro s hd h300 h404
    simp [postureRead, doPostureRequest, classifiedRequest, hd, h300, h404]
  · intro s hn hd h
    simp [postureRead, doPostureRequest, classifiedRequest, hn, hd, h]
  · intro s hn hd h300 h404
    simp [postureRead, doPostureRequest, classifiedRequest, hn, hd, h300, h404]
  · intro s h
    simp [autoApproversRead, doSingleObjectReq, classifiedRequest, h]
  · intro s h300 h404
    simp [autoApproversRead, doSingleObjectReq, classifiedRequest, h300, h404]

/-- Witness for C1: a stub answering 404 makes the nodeattr Read with
stored identity xyz drop the resource without error, and a stub
answering 500 makes the ssh Read surface an error with the state kept. -/
theorem read_notfound_drops_state_without_error_witness :
    ((nodeattrRead "E" (fun _ => ⟨404, Json.null⟩)
        ⟨TfString.val "xyz", TfList.null, TfList.null, TfString.null⟩).state =
          .removed ∧
      (nodeattrRead "E" (fun _ => ⟨404, Json.null⟩)
        ⟨TfString.val "xyz", TfList.null, TfList.null, TfString.null⟩).diags = [])
  ∧ ((sshRead "E" (fun _ => ⟨500, Json.str "boom"⟩)
        ⟨TfString.val "xyz", TfString.val "accept", [], [], [],
          TfString.null, []⟩).state = .untouched ∧
      (sshRead "E" (fun _ => ⟨500, Json.str "boom"⟩)
        ⟨TfString.val "xyz", TfString.val "accept", [], [], [],
          TfString.null, []⟩).diags ≠ []) := by
  refine ⟨?_, ?_⟩
  · exact (read_notfound_drops_state_without_error "E"
      (fun _ => ⟨404, Json.null⟩)).1 _ rfl
  · exact (read_notfound_drops_state_without_error "E"
      (fun _ => ⟨500, Json.str "boom"⟩)).2.2.2.1 _ rfl (by decide)
      (by decide) (by decide)

/-- C2 counterexample: a nodeattr payload that populates exactly one
exclusive group (app_json alone, here with content that is not a valid
JSON document) is rejected with an Invalid app_json diagnostic and zero
HTTP requests, refuting the claim that whenever exactly one group is
populated the network request is attempted. -/
theorem nodeattr_exactly_one_group_counterexample :
    nodeattrHasAttr (some []) = false ∧
    nodeattrHasApp (TfString.val "x") = true ∧
    listToStringSlice (TfList.valid []) = .ok (some []) ∧
    nodeattrCreate "E" (fun _ => ⟨200, Json.null⟩)
      ⟨TfString.null, TfList.valid ["t"], TfList.valid [], TfString.val "x"⟩ =
      ⟨[], .untouched, [⟨"Invalid app_json", "invalid JSON document"⟩]⟩ := by
  exact ⟨rfl, rfl, rfl, rfl⟩

/-- C2 amended: on nodeattr Create and Update, a payload populating both
exclusive groups or neither is rejected with the single Invalid config
diagnostic naming both groups and no HTTP request; when exactly one
group is populated the request is attempted, provided that, when the
populated group is app_json, its contents parse as a JSON document -
otherwise an Invalid app_json diagnostic is returned, again with no
request. -/
theorem nodeattr_exclusive_group_validation (ep : String) (t : Transport)
    (plan oldState : NodeattrModel) (ts as : Option (List String))
    (htgt : listToStringSlice plan.target = .ok ts)
    (hat : listToStringSlice plan.attr = .ok as)
    (hoid : oldState.id.valueString ≠ "") :
    (((nodeattrHasAttr as && nodeattrHasApp plan.appJson) ||
       (!nodeattrHasAttr as && !nodeattrHasApp plan.appJson)) = true →
      nodeattrCreate ep t plan =
        ⟨[], .untouched,
         [⟨"Invalid config", "Exactly one of `attr` or `app_json` must be set."⟩]⟩ ∧
      nodeattrUpdate ep t oldState plan =
        ⟨[], .untouched,
         [⟨"Invalid config", "Exactly one of `attr` or `app_json` must be set."⟩]⟩)
  ∧ (nodeattrHasAttr as = true → nodeattrHasApp plan.appJson = false →
      (nodeattrCreate ep t plan).requests.length = 1 ∧
      (nodeattrUpdate ep t oldState plan).requests.length = 1)
  ∧ (∀ app, nodeattrHasAttr as = false → nodeattrHasApp plan.appJson = true →
      goUnmarshalObj plan.appJson.valueString = .ok app →
      (nodeattrCreate ep t plan).requests.length = 1 ∧
      (nodeattrUpdate ep t oldState plan).requests.length = 1)
  ∧ (nodeattrHasAttr as = false → nodeattrHasApp plan.appJson = true →
      goUnmarshalObj plan.appJson.valueString = .error () →
      nodeattrCreate ep t plan =
        ⟨[], .untouched, [⟨"Invalid app_json", "invalid JSON document"⟩]⟩ ∧
      nodeattrUpdate ep t oldState plan =
        ⟨[], .untouched, [⟨"Invalid app_json", "invalid JSON document"⟩]⟩) := by
  refine ⟨?_, ?_, ?_, ?_⟩
  · intro hcond
    have hbuild : buildNodeattrInput plan = .error
        ⟨"Invalid config", "Exactly one of `attr` or `app_json` must be set."⟩ := by
      simp [buildNodeattrInput, htgt, hat, hcond]
    have hbuild2 : buildNodeattrInput { plan with id := oldState.id } = .error
        ⟨"Invalid config", "Exactly one of `attr` or `app_json` must be set."⟩ := by
      simp [buildNodeattrInput, htgt, hat, hcond]
    exact ⟨by simp [nodeattrCreate, hbuild], by simp [nodeattrUpdate, hoid, hbuild2]⟩
  · intro hattr happ
    have hbuild : buildNodeattrInput plan = .ok ⟨ts, as.getD [], none⟩ := by
      simp [buildNodeattrInput, htgt, hat, hattr, happ]
    have hbuild2 : buildNodeattrInput { plan with id := oldState.id } =
        .ok ⟨ts, as.getD [], none⟩ := by
      simp [buildNodeattrInput, htgt, hat, hattr, happ]
    exact ⟨by simp [nodeattrCreate, hbuild], by simp [nodeattrUpdate, hoid, hbuild2]⟩
  · intro app hattr happ hparse
    have hbuild : buildNodeattrInput plan = .ok ⟨some ["*"], [], app⟩ := by
      simp [buildNodeattrInput, htgt, hat, hattr, happ, hparse]
    have hbuild2 : buildNodeattrInput { plan with id := oldState.id } =
        .ok ⟨some ["*"], [], app⟩ := by
      simp [buildNodeattrInput, htgt, hat, hattr, happ, hparse]
    exact ⟨by simp [nodeattrCreate, hbuild], by simp [nodeattrUpdate, hoid, hbuild2]⟩
  · intro hattr happ hparse
    have hbuild : buildNodeattrInput plan = .error
        ⟨"Invalid app_json", "invalid JSON document"⟩ := by
      simp [buildNodeattrInput, htgt, hat, hattr, happ, hparse]
    have hbuild2 : buildNodeattrInput { plan with id := oldState.id } = .error
        ⟨"Invalid app_json", "invalid JSON document"⟩ := by
      simp [buildNodeattrInput, htgt, hat, hattr, happ, hparse]
    exact ⟨by simp [nodeattrCreate, hbuild], by simp [nodeattrUpdate, hoid, hbuild2]⟩

/-- Witness for C2 amended: a payload with both attr and app_json
populated is rejected with the Invalid config diagnostic and no request,
and a payload with app_json alone populated by a JSON document makes
exactly one request. -/
theorem nodeattr_exclusive_group_validation_witness :
    nodeattrCreate "E" (fun _ => ⟨200, Json.null⟩)
      ⟨TfString.null, TfList.valid ["t"], TfList.valid ["a"],
        TfString.val "\x7b\x7d"⟩ =
      ⟨[], .untouched,
       [⟨"Invalid config", "Exactly one of `attr` or `app_json` must be set."⟩]⟩ ∧
    (nodeattrCreate "E" (fun _ => ⟨200, Json.null⟩)
      ⟨TfString.null, TfList.valid ["t"], TfList.valid [],
        TfString.val "\x7b\x7d"⟩).requests.length = 1 := by
  refine ⟨?_, ?_⟩
  · exact ((nodeattr_exclusive_group_validation "E" (fun _ => ⟨200, Json.null⟩)
      ⟨TfString.null, TfList.valid ["t"], TfList.valid ["a"], TfString.val "\x7b\x7d"⟩
      ⟨TfString.val "i", TfList.null, TfList.null, TfString.null⟩
      (some ["t"]) (some ["a"]) rfl rfl (by decide)).1 rfl).1
  · exact ((nodeattr_exclusive_group_validation "E" (fun _ => ⟨200, Json.null⟩)
      ⟨TfString.null, TfList.valid ["t"], TfList.valid [], TfString.val "\x7b\x7d"⟩
      ⟨TfString.val "i", TfList.null, TfList.null, TfString.null⟩
      (some ["t"]) (some []) rfl rfl (by decide)).2.2.1 (some []) rfl rfl rfl).1

/-- C3 (code bug): doDERPMapDSRequest maps a 404 response to a plain
formatted error that the not-found predicate does not recognize, so the
typed DERP-map data-source Read surfaces the 404 as an error diagnostic
instead of the empty result its own not-found branch intends; by
contrast the other helpers (doNodeAttrRequest shown here) map 404 to a
typed NotFoundError that the predicate accepts. -/
theorem derpmap_ds_404_surfaces_error :
    isNotFound (doDERPMapDSRequest (fun _ => ⟨404, Json.null⟩) "E/derpmap") = false ∧
    doDERPMapDSRequest (fun _ => ⟨404, Json.null⟩) "E/derpmap" =
      .genericErr "NotFound" ∧
    (derpMapDSRead "E" (fun _ => ⟨404, Json.null⟩)).diags =
      [⟨"DERPMap data source read error", "NotFound"⟩] ∧
    isNotFound (doNodeAttrRequest (fun _ => ⟨404, Json.null⟩) .get "E/nodeattrs/x" none) =
      true := by
  exact ⟨rfl, rfl, rfl, rfl⟩

/-- The entry ssh Update builds ignores the model's ID field. -/
theorem sshEntryOfPlan_id_irrelevant (plan : SshModel) (x : TfString) :
    sshEntryOfPlan { plan with id := x } = sshEntryOfPlan plan := rfl

/-- C4 counterexample: the group resource, a NamedCollection kind, runs
Update from the plan alone; with stored identity a (carried in the
plan's computed id) and plan name b, the PUT body carries the plan's
name b and the stored identity silently becomes b with no conflict
diagnostic, refuting both the prior-state-identity rule and the
rename-surfaces-as-conflict rule. -/
theorem group_update_changes_identity_counterexample :
    (groupUpdate "E" (fun _ => ⟨200, Json.obj []⟩)
      ⟨TfString.val "a", TfString.val "b", []⟩).requests =
      [⟨.put, "E/groups",
        some (Json.obj [("name", Json.str "b"), ("members", Json.arr [])])⟩] ∧
    (groupUpdate "E" (fun _ => ⟨200, Json.obj []⟩)
      ⟨TfString.val "a", TfString.val "b", []⟩).state =
      .set ⟨TfString.val "b", TfString.val "b", []⟩ ∧
    (groupUpdate "E" (fun _ => ⟨200, Json.obj []⟩)
      ⟨TfString.val "a", TfString.val "b", []⟩).diags = [] := by
  exact ⟨rfl, rfl, rfl⟩

/-- C4 amended: for the ID-keyed kinds (ssh, acl, nodeattr) Update
resolves its request from the identity in prior state - the plan's ID
is ignored - and, when the server echoes that identity, the stored
identity is unchanged after a successful Update; for the group kind,
Update is driven by the plan alone and the plan's name silently becomes
the stored identity, with no conflict surfaced. -/
theorem update_identity_resolution (ep : String) (t : Transport) :
    (∀ (oldState plan0 : SshModel), oldState.id.valueString ≠ "" →
      (sshUpdate ep t oldState plan0).requests =
        [⟨.put, ep ++ "/ssh",
          some (sshUpdateEnvelope oldState.id.valueString (sshEntryOfPlan plan0))⟩])
  ∧ (∀ (oldState plan0 : SshModel) (x : TfString),
      sshUpdate ep t oldState plan0 = sshUpdate ep t oldState { plan0 with id := x })
  ∧ (∀ (oldState plan0 : SshModel) (r : TaclSSHResponse),
      oldState.id.valueString ≠ "" →
      (t ⟨.put, ep ++ "/ssh",
        some (sshUpdateEnvelope oldState.id.valueString
          (sshEntryOfPlan plan0))⟩).status < 300 →
      decodeTaclSSHResponse (t ⟨.put, ep ++ "/ssh",
        some (sshUpdateEnvelope oldState.id.valueString
          (sshEntryOfPlan plan0))⟩).body = .ok r →
      r.id = oldState.id.valueString →
      (sshUpdate ep t oldState plan0).state =
        .set (sshFillFromResponse { plan0 with id := oldState.id } r) ∧
      (sshFillFromResponse { plan0 with id := oldState.id } r).id =
        TfString.val oldState.id.valueString)
  ∧ (∀ (oldState plan0 : AclModel), oldState.id.valueString ≠ "" →
      (aclUpdate ep t oldState plan0).requests =
        [⟨.put, ep ++ "/acls",
          some (aclUpdateEnvelope oldState.id.valueString
            (encodeTaclACLEntry plan0.action.valueString (toStringSlice plan0.src)
              plan0.proto.valueString (toStringSlice plan0.dst)))⟩])
  ∧ (∀ (oldState plan0 : NodeattrModel) (input : NodeAttrGrantInput),
      oldState.id.valueString ≠ "" →
      buildNodeattrInput { plan0 with id := oldState.id } = .ok input →
      (nodeattrUpdate ep t oldState plan0).requests =
        [⟨.put, ep ++ "/nodeattrs",
          some (nodeattrUpdateEnvelope oldState.id.valueString input)⟩])
  ∧ (∀ (plan : GroupModel) (m : GroupModel),
      (groupUpdate ep t plan).state = .set m →
      m.id = m.name ∧ m.name = plan.name) := by
  refine ⟨?_, ?_, ?_, ?_, ?_, ?_⟩
  · intro oldState plan0 hoid
    simp [sshUpdate, hoid, sshEntryOfPlan_id_irrelevant]
  · intro oldState plan0 x
    rfl
  · intro oldState plan0 r hoid hst hdec hecho
    have h404 : (t ⟨.put, ep ++ "/ssh",
        some (sshUpdateEnvelope oldState.id.valueString
          (sshEntryOfPlan plan0))⟩).status ≠ 404 := by omega
    have hle : ¬ (300 ≤ (t ⟨.put, ep ++ "/ssh",
        some (sshUpdateEnvelope oldState.id.valueString
          (sshEntryOfPlan plan0))⟩).status) := by omega
    constructor
    · simp [sshUpdate, hoid, doSSHIDRequest, classifiedRequest,
        sshEntryOfPlan_id_irrelevant, h404, hle, hdec]
    · simp [sshFillFromResponse, hecho]
  · intro oldState plan0 hoid
    simp [aclUpdate, hoid]
  · intro oldState plan0 input hoid hbuild
    simp [nodeattrUpdate, hoid, hbuild]
  · intro plan m h
    rcases hcls : doRequest t .put (ep ++ "/groups") (some (groupPayload plan)) with
      b | s | s <;> simp [groupUpdate, hcls] at h
    rcases hdec : decodeAnyObj b with fs | fs <;> simp [hdec] at h
    rcases hm : lookupField fs "members" with _ | v
    · simp [hm] at h
      simp [← h]
    · rcases v with _ | _ | _ | _ | xs | gs <;> simp [hm] at h <;> simp [← h]

/-- Witness for C4 amended: an ssh Update with stored identity u1 and a
plan carrying a different ID sends the envelope keyed by u1, and a group
Update that set state stored the plan's name b as the identity. -/
theorem update_identity_resolution_witness :
    (sshUpdate "E" (fun _ => ⟨200, Json.obj []⟩)
      ⟨TfString.val "u1", TfString.val "accept", [], [], [], TfString.null, []⟩
      ⟨TfString.val "other", TfString.val "check", [], [], [], TfString.null, []⟩).requests =
      [⟨.put, "E/ssh",
        some (sshUpdateEnvelope "u1" (sshEntryOfPlan
          ⟨TfString.val "other", TfString.val "check", [], [], [],
            TfString.null, []⟩))⟩] ∧
    ((TfString.val "b" : TfString) = TfString.val "b" ∧
      (TfString.val "b" : TfString) =
        (⟨TfString.val "a", TfString.val "b", []⟩ : GroupModel).name) := by
  refine ⟨?_, ?_⟩
  · exact (update_identity_resolution "E" (fun _ => ⟨200, Json.obj []⟩)).1
      ⟨TfString.val "u1", TfString.val "accept", [], [], [], TfString.null, []⟩
      ⟨TfString.val "other", TfString.val "check", [], [], [], TfString.null, []⟩
      (by decide)
  · exact (update_identity_resolution "E" (fun _ => ⟨200, Json.obj []⟩)).2.2.2.2.2
      ⟨TfString.val "a", TfString.val "b", []⟩
      ⟨TfString.val "b", TfString.val "b", []⟩ rfl

/-- C5 counterexample: the default-posture Update with rules r1 and r2
sends a body whose single key is defaultSourcePosture, which is not the
body with key rules that the claim states. -/
theorem posture_default_update_body_counterexample :
    (postureUpdate "E" (fun _ => ⟨200, Json.obj []⟩)
      ⟨TfString.val "default", TfString.val "default", TfList.valid ["r1", "r2"]⟩
      ⟨TfString.val "default", TfString.val "default",
        TfList.valid ["r1", "r2"]⟩).requests =
      [⟨.put, "E/postures/default",
        some (Json.obj [("defaultSourcePosture",
          Json.arr [Json.str "r1", Json.str "r2"])])⟩] ∧
    Json.obj [("defaultSourcePosture", Json.arr [Json.str "r1", Json.str "r2"])] ≠
      Json.obj [("rules", Json.arr [Json.str "r1", Json.str "r2"])] := by
  refine ⟨rfl, ?_⟩
  simp

/-- C5 amended: a posture Update whose identity is default issues one
PUT to the fixed sub-path /postures/default whose body is the bare
field list keyed defaultSourcePosture - with no name wrapper - so an
Update with rules r1 and r2 sends exactly that array under the
defaultSourcePosture key. -/
theorem posture_default_update_request (ep : String) (t : Transport)
    (oldState plan : PostureModel) (rs : Option (List String))
    (hname : plan.name.valueString = "default")
    (hrules : listToStringSlice plan.rules = .ok rs) :
    (postureUpdate ep t oldState plan).requests =
      [⟨.put, ep ++ "/postures/default", some (defaultPosturePayload rs)⟩] ∧
    lookupField [("defaultSourcePosture", encodeStrSlice rs)] "name" = none ∧
    defaultPosturePayload (some ["r1", "r2"]) =
      Json.obj [("defaultSourcePosture", Json.arr [Json.str "r1", Json.str "r2"])] := by
  refine ⟨?_, rfl, rfl⟩
  simp [postureUpdate, hname, hrules]

/-- Witness for C5 amended: the scenario with identity default and rules
r1 and r2 issues exactly the PUT to /postures/default carrying the bare
defaultSourcePosture list. -/
theorem posture_default_update_request_witness :
    (postureUpdate "E" (fun _ => ⟨200, Json.obj []⟩)
      ⟨TfString.val "default", TfString.val "default", TfList.valid ["r1", "r2"]⟩
      ⟨TfString.val "default", TfString.val "default",
        TfList.valid ["r1", "r2"]⟩).requests =
      [⟨.put, "E/postures/default",
        some (defaultPosturePayload (some ["r1", "r2"]))⟩] := by
  exact (posture_default_update_request "E" (fun _ => ⟨200, Json.obj []⟩)
    ⟨TfString.val "default", TfString.val "default", TfList.valid ["r1", "r2"]⟩
    ⟨TfString.val "default", TfString.val "default", TfList.valid ["r1", "r2"]⟩
    (some ["r1", "r2"]) rfl rfl).1

/-- C6: for every embedded resource kind (nodeattr, ssh, acl, group,
posture default and named), a Delete whose HTTP request is answered 404
removes the resource from state with no error, exactly as a Delete
answered with a success status does; hence Delete after Delete reaches
Absent both times with no failure surfaced on the second call. -/
theorem delete_notfound_is_success (ep : String) (t : Transport) :
    (∀ s : NodeattrModel,
      ((t ⟨.delete, ep ++ "/nodeattrs",
          some (Json.obj [("id", Json.str s.id.valueString)])⟩).status = 404 ∨
        (t ⟨.delete, ep ++ "/nodeattrs",
          some (Json.obj [("id", Json.str s.id.valueString)])⟩).status < 300) →
      (nodeattrDelete ep t s).state = .removed ∧ (nodeattrDelete ep t s).diags = [])
  ∧ (∀ s : SshModel,
      ((t ⟨.delete, ep ++ "/ssh",
          some (Json.obj [("id", Json.str s.id.valueString)])⟩).status = 404 ∨
        (t ⟨.delete, ep ++ "/ssh",
          some (Json.obj [("id", Json.str s.id.valueString)])⟩).status < 300) →
      (sshDelete ep t s).state = .removed ∧ (sshDelete ep t s).diags = [])
  ∧ (∀ s : AclModel,
      ((t ⟨.delete, ep ++ "/acls",
          some (Json.obj [("id", Json.str s.id.valueString)])⟩).status = 404 ∨
        (t ⟨.delete, ep ++ "/acls",
          some (Json.obj [("id", Json.str s.id.valueString)])⟩).status < 300) →
      (aclDelete ep t s).state = .removed ∧ (aclDelete ep t s).diags = [])
  ∧ (∀ s : GroupModel,
      ((t ⟨.delete, ep ++ "/groups",
          some (Json.obj [("name", Json.str s.name.valueString)])⟩).status = 404 ∨
        (t ⟨.delete, ep ++ "/groups",
          some (Json.obj [("name", Json.str s.name.valueString)])⟩).status < 300) →
      (groupDelete ep t s).state = .removed ∧ (groupDelete ep t s).diags = [])
  ∧ (∀ s : PostureModel, s.name.valueString = "default" →
      ((t ⟨.delete, ep ++ "/postures/default", none⟩).status = 404 ∨
        (t ⟨.delete, ep ++ "/postures/default", none⟩).status < 300) →
      (postureDelete ep t s).state = .removed ∧ (postureDelete ep t s).diags = [])
  ∧ (∀ s : PostureModel,
      s.name.valueString ≠ "" → s.name.valueString ≠ "default" →
      ((t ⟨.delete, ep ++ "/postures",
          some (Json.obj [("name", Json.str s.name.valueString)])⟩).status = 404 ∨
        (t ⟨.delete, ep ++ "/postures",
          some (Json.obj [("name", Json.str s.name.valueString)])⟩).status < 300) →
      (postureDelete ep t s).state = .removed ∧
        (postureDelete ep t s).diags = []) := by
  refine ⟨?_, ?_, ?_, ?_, ?_, ?_⟩
  · intro s h
    rcases h with h | h
    · by_cases hid : s.id.valueString = "" <;>
        simp [nodeattrDelete, doNodeAttrRequest, classifiedRequest, hid, h]
    · have h404 : (t ⟨.delete, ep ++ "/nodeattrs",
          some (Json.obj [("id", Json.str s.id.valueString)])⟩).status ≠ 404 := by omega
      have hle : ¬ (300 ≤ (t ⟨.delete, ep ++ "/nodeattrs",
          some (Json.obj [("id", Json.str s.id.valueString)])⟩).status) := by omega
      by_cases hid : s.id.valueString = "" <;>
        simp [nodeattrDelete, doNodeAttrRequest, classifiedRequest, hid, h404, hle]
  · intro s h
    rcases h with h | h
    · by_cases hid : s.id.valueString = "" <;>
        simp [sshDelete, doSSHIDRequest, classifiedRequest, hid, h]
    · have h404 : (t ⟨.delete, ep ++ "/ssh",
          some (Json.obj [("id", Json.str s.id.valueString)])⟩).status ≠ 404 := by omega
      have hle : ¬ (300 ≤ (t ⟨.delete, ep ++ "/ssh",
          some (Json.obj [("id", Json.str s.id.valueString)])⟩).status) := by omega
      by_cases hid : s.id.valueString = "" <;>
        simp [sshDelete, doSSHIDRequest, classifiedRequest, hid, h404, hle]
  · intro s h
    rcases h with h | h
    · by_cases hid : s.id.valueString = "" <;>
        simp [aclDelete, doACLIDRequest, classifiedRequest, hid, h]
    · have h404 : (t ⟨.delete, ep ++ "/acls",
          some (Json.obj [("id", Json.str s.id.valueString)])⟩).status ≠ 404 := by omega
      have hle : ¬ (300 ≤ (t ⟨.delete, ep ++ "/acls",
          some (Json.obj [("id", Json.str s.id.valueString)])⟩).status) := by omega
      by_cases hid : s.id.valueString = "" <;>
        simp [aclDelete, doACLIDRequest, classifiedRequest, hid, h404, hle]
  · intro s h
    rcases h with h | h
    · simp [groupDelete, doRequest, classifiedRequest, h]
    · have h404 : (t ⟨.delete, ep ++ "/groups",
          some (Json.obj [("name", Json.str s.name.valueString)])⟩).status ≠ 404 := by
        omega
      have hle : ¬ (300 ≤ (t ⟨.delete, ep ++ "/groups",
          some (Json.obj [("name", Json.str s.name.valueString)])⟩).status) := by omega
      simp [groupDelete, doRequest, classifiedRequest, h404, hle]
  · intro s hname h
    rcases h with h | h
    · simp [postureDelete, doPostureRequest, classifiedRequest, hname, h]
    · have h404 : (t ⟨.delete, ep ++ "/postures/default", none⟩).status ≠ 404 := by
        omega
      have hle : ¬ (300 ≤ (t ⟨.delete, ep ++ "/postures/default", none⟩).status) := by
        omega
      simp [postureDelete, doPostureRequest, classifiedRequest, hname, h404, hle]
  · intro s hn hd h
    rcases h with h | h
    · simp [postureDelete, doPostureRequest, classifiedRequest, hn, hd, h]
    · have h404 : (t ⟨.delete, ep ++ "/postures",
          some (Json.obj [("name", Json.str s.name.valueString)])⟩).status ≠ 404 := by
        omega
      have hle : ¬ (300 ≤ (t ⟨.delete, ep ++ "/postures",
          some (Json.obj [("name", Json.str s.name.valueString)])⟩).status) := by omega
      simp [postureDelete, doPostureRequest, classifiedRequest, hn, hd, h404, hle]

/-- Witness for C6: a first nodeattr Delete answered 200 removes the
resource, and a second Delete of the same identity answered 404 also
removes it with no error surfaced. -/
theorem delete_notfound_is_success_witness :
    ((nodeattrDelete "E" (fun _ => ⟨200, Json.null⟩)
        ⟨TfString.val "n1", TfList.null, TfList.null, TfString.null⟩).state =
          .removed ∧
      (nodeattrDelete "E" (fun _ => ⟨200, Json.null⟩)
        ⟨TfString.val "n1", TfList.null, TfList.null, TfString.null⟩).diags = [])
  ∧ ((nodeattrDelete "E" (fun _ => ⟨404, Json.null⟩)
        ⟨TfString.val "n1", TfList.null, TfList.null, TfString.null⟩).state =
          .removed ∧
      (nodeattrDelete "E" (fun _ => ⟨404, Json.null⟩)
        ⟨TfString.val "n1", TfList.null, TfList.null, TfString.null⟩).diags = []) := by
  refine ⟨?_, ?_⟩
  · exact (delete_notfound_is_success "E" (fun _ => ⟨200, Json.null⟩)).1 _
      (Or.inr (by decide))
  · exact (delete_notfound_is_success "E" (fun _ => ⟨404, Json.null⟩)).1 _
      (Or.inl rfl)

/-- Every field of the ssh state-filling block comes from the response
alone; the prior model value is immaterial. -/
theorem sshFillFromResponse_irrelevant (m m' : SshModel) (r : TaclSSHResponse) :
    sshFillFromResponse m r = sshFillFromResponse m' r := rfl

/-- Every field of the acl state-filling block comes from the response
alone. -/
theorem aclFillFromResponse_irrelevant (m m' : AclModel) (r : TaclACLResponse) :
    aclFillFromResponse m r = aclFillFromResponse m' r := rfl

/-- Every field of the nodeattr state-filling block comes from the
response alone. -/
theorem nodeattrFillFromResponse_irrelevant (m m' : NodeattrModel)
    (r : NodeAttrResponse) :
    nodeattrFillFromResponse m r = nodeattrFillFromResponse m' r := rfl

/-- C7 counterexample: a group Read whose 200 response is an object
without a members array keeps the previously stored members - two prior
states differing only in members produce different read results from
the same response, so the stored state is merged field-by-field rather
than replaced wholesale from the response. -/
theorem group_read_merges_members_counterexample :
    (groupRead "E" (fun _ => ⟨200, Json.obj []⟩)
      ⟨TfString.val "g", TfString.val "g", [TfString.val "m1"]⟩).state =
      .set ⟨TfString.val "g", TfString.val "g", [TfString.val "m1"]⟩ ∧
    (groupRead "E" (fun _ => ⟨200, Json.obj []⟩)
      ⟨TfString.val "g", TfString.val "g", [TfString.val "m2"]⟩).state =
      .set ⟨TfString.val "g", TfString.val "g", [TfString.val "m2"]⟩ ∧
    (TfString.val "m1" : TfString) ≠ TfString.val "m2" := by
  exact ⟨rfl, rfl, by decide⟩

/-- C7 amended: the ssh, acl and nodeattr Reads replace the stored
state wholesale - two prior states with the same identity yield
identical results, every field coming from the response - but the group
Read keeps the previously stored members whenever the response object
carries no members key. -/
theorem observed_state_replacement (ep : String) (t : Transport) :
    (∀ s1 s2 : SshModel, s1.id = s2.id → sshRead ep t s1 = sshRead ep t s2)
  ∧ (∀ s1 s2 : AclModel, s1.id = s2.id → aclRead ep t s1 = aclRead ep t s2)
  ∧ (∀ s1 s2 : NodeattrModel, s1.id = s2.id →
      nodeattrRead ep t s1 = nodeattrRead ep t s2)
  ∧ (∀ (s : GroupModel) (fs : List (String × Json)),
      (t ⟨.get, ep ++ "/groups/" ++ s.name.valueString, none⟩).status < 300 →
      decodeAnyObj (t ⟨.get, ep ++ "/groups/" ++ s.name.valueString, none⟩).body =
        .ok fs →
      lookupField fs "members" = none →
      (groupRead ep t s).state =
        .set ⟨TfString.val s.name.valueString, TfString.val s.name.valueString,
          s.members⟩) := by
  refine ⟨?_, ?_, ?_, ?_⟩
  · intro s1 s2 h
    have hfill : ∀ r, sshFillFromResponse s1 r = sshFillFromResponse s2 r :=
      fun r => sshFillFromResponse_irrelevant s1 s2 r
    simp [sshRead, h, hfill]
  · intro s1 s2 h
    have hfill : ∀ r, aclFillFromResponse s1 r = aclFillFromResponse s2 r :=
      fun r => aclFillFromResponse_irrelevant s1 s2 r
    simp [aclRead, h, hfill]
  · intro s1 s2 h
    have hfill : ∀ r, nodeattrFillFromResponse s1 r = nodeattrFillFromResponse s2 r :=
      fun r => nodeattrFillFromResponse_irrelevant s1 s2 r
    simp [nodeattrRead, h, hfill]
  · intro s fs hst hdec hm
    have h404 : (t ⟨.get, ep ++ "/groups/" ++ s.name.valueString, none⟩).status ≠ 404 := by
      omega
    have hle : ¬ (300 ≤ (t ⟨.get, ep ++ "/groups/" ++ s.name.valueString, none⟩).status) := by
      omega
    simp [groupRead, doRequest, classifiedRequest, h404, hle, hdec, hm]

/-- Witness for C7 amended: two ssh prior states with identity u1 and
different stored fields read identically under one stub, and the group
Read of the counterexample state retains the stored member m1 when the
response object is empty. -/
theorem observed_state_replacement_witness :
    sshRead "E" (fun _ => ⟨200, Json.obj []⟩)
      ⟨TfString.val "u1", TfString.val "accept", [TfString.val "s1"], [], [],
        TfString.null, []⟩ =
    sshRead "E" (fun _ => ⟨200, Json.obj []⟩)
      ⟨TfString.val "u1", TfString.val "check", [], [TfString.val "d1"], [],
        TfString.null, []⟩ ∧
    (groupRead "E" (fun _ => ⟨200, Json.obj []⟩)
      ⟨TfString.val "g", TfString.val "g", [TfString.val "m1"]⟩).state =
      .set ⟨TfString.val "g", TfString.val "g", [TfString.val "m1"]⟩ := by
  refine ⟨?_, ?_⟩
  · exact (observed_state_replacement "E" (fun _ => ⟨200, Json.obj []⟩)).1
      ⟨TfString.val "u1", TfString.val "accept", [TfString.val "s1"], [], [],
        TfString.null, []⟩
      ⟨TfString.val "u1", TfString.val "check", [], [TfString.val "d1"], [],
        TfString.null, []⟩ rfl
  · exact (observed_state_replacement "E" (fun _ => ⟨200, Json.obj []⟩)).2.2.2
      ⟨TfString.val "g", TfString.val "g", [TfString.val "m1"]⟩ [] (by decide)
      rfl rfl

/-- C8: whenever the app_json group is active on nodeattr Create or
Update, the grant input sent to the server has its target forced to the
wildcard sentinel, regardless of the plan's target list; when the attr
group is active, the converted plan target is sent unchanged. -/
theorem nodeattr_app_forces_wildcard_target (ep : String) (t : Transport)
    (plan oldState : NodeattrModel) (ts as : Option (List String))
    (app : Option (List (String × Json)))
    (htgt : listToStringSlice plan.target = .ok ts)
    (hat : listToStringSlice plan.attr = .ok as)
    (hoid : oldState.id.valueString ≠ "") :
    (nodeattrHasAttr as = false → nodeattrHasApp plan.appJson = true →
      goUnmarshalObj plan.appJson.valueString = .ok app →
      buildNodeattrInput plan = .ok ⟨some ["*"], [], app⟩ ∧
      (nodeattrCreate ep t plan).requests =
        [⟨.post, ep ++ "/nodeattrs",
          some (encodeNodeAttrGrantInput ⟨some ["*"], [], app⟩)⟩] ∧
      (nodeattrUpdate ep t oldState plan).requests =
        [⟨.put, ep ++ "/nodeattrs",
          some (nodeattrUpdateEnvelope oldState.id.valueString
            ⟨some ["*"], [], app⟩)⟩])
  ∧ (nodeattrHasAttr as = true → nodeattrHasApp plan.appJson = false →
      buildNodeattrInput plan = .ok ⟨ts, as.getD [], none⟩ ∧
      (nodeattrCreate ep t plan).requests =
        [⟨.post, ep ++ "/nodeattrs",
          some (encodeNodeAttrGrantInput ⟨ts, as.getD [], none⟩)⟩] ∧
      (nodeattrUpdate ep t oldState plan).requests =
        [⟨.put, ep ++ "/nodeattrs",
          some (nodeattrUpdateEnvelope oldState.id.valueString
            ⟨ts, as.getD [], none⟩)⟩]) := by
  refine ⟨?_, ?_⟩
  · intro hattr happ hparse
    have hbuild : buildNodeattrInput plan = .ok ⟨some ["*"], [], app⟩ := by
      simp [buildNodeattrInput, htgt, hat, hattr, happ, hparse]
    have hbuild2 : buildNodeattrInput { plan with id := oldState.id } =
        .ok ⟨some ["*"], [], app⟩ := by
      simp [buildNodeattrInput, htgt, hat, hattr, happ, hparse]
    exact ⟨hbuild, by simp [nodeattrCreate, hbuild],
      by simp [nodeattrUpdate, hoid, hbuild2]⟩
  · intro hattr happ
    have hbuild : buildNodeattrInput plan = .ok ⟨ts, as.getD [], none⟩ := by
      simp [buildNodeattrInput, htgt, hat, hattr, happ]
    have hbuild2 : buildNodeattrInput { plan with id := oldState.id } =
        .ok ⟨ts, as.getD [], none⟩ := by
      simp [buildNodeattrInput, htgt, hat, hattr, happ]
    exact ⟨hbuild, by simp [nodeattrCreate, hbuild],
      by simp [nodeattrUpdate, hoid, hbuild2]⟩

/-- Witness for C8: a plan whose app_json is an empty JSON document and
whose target list is t1 sends the wildcard target, and an attr-based
plan sends its own target unchanged. -/
theorem nodeattr_app_forces_wildcard_target_witness :
    buildNodeattrInput
      ⟨TfString.null, TfList.valid ["t1"], TfList.valid [],
        TfString.val "\x7b\x7d"⟩ = .ok ⟨some ["*"], [], some []⟩ ∧
    buildNodeattrInput
      ⟨TfString.null, TfList.valid ["t1"], TfList.valid ["a1"],
        TfString.null⟩ = .ok ⟨some ["t1"], ["a1"], none⟩ := by
  refine ⟨?_, ?_⟩
  · exact ((nodeattr_app_forces_wildcard_target "E" (fun _ => ⟨200, Json.null⟩)
      ⟨TfString.null, TfList.valid ["t1"], TfList.valid [], TfString.val "\x7b\x7d"⟩
      ⟨TfString.val "i", TfList.null, TfList.null, TfString.null⟩
      (some ["t1"]) (some []) (some []) rfl rfl (by decide)).1 rfl rfl rfl).1
  · exact ((nodeattr_app_forces_wildcard_target "E" (fun _ => ⟨200, Json.null⟩)
      ⟨TfString.null, TfList.valid ["t1"], TfList.valid ["a1"], TfString.null⟩
      ⟨TfString.val "i", TfList.null, TfList.null, TfString.null⟩
      (some ["t1"]) (some ["a1"]) none rfl rfl (by decide)).2 rfl rfl).1

/-- C9 counterexample: an auto-approvers Create whose routes map fails
to decode silently substitutes the empty map and continues with the
network call, adding no diagnostic, refuting the claim that a decode
failure is never silently replaced by an empty value. -/
theorem conversion_silent_empty_counterexample :
    toStringSliceMap TfMap.malformed = [] ∧
    (autoApproversCreate "E" (fun _ => ⟨200, Json.obj []⟩)
      ⟨TfString.null, TfMap.malformed, []⟩).requests =
      [⟨.post, "E/autoapprovers", some (encodeACLAutoApprovers [] [])⟩] ∧
    (autoApproversCreate "E" (fun _ => ⟨200, Json.obj []⟩)
      ⟨TfString.null, TfMap.malformed, []⟩).diags = [] := by
  exact ⟨rfl, rfl, rfl⟩

/-- C9 amended: conversion failures on the desired payload are surfaced
before any network call for the list conversions (nodeattr target shown
here), but toStringSliceMap swallows a routes decode failure, sending
the empty map to the server with no diagnostic. -/
theorem conversion_failure_handling (ep : String) (t : Transport) :
    (∀ data : AutoApproversModel, data.routes = TfMap.malformed →
      (autoApproversCreate ep t data).requests =
        [⟨.post, ep ++ "/autoapprovers",
          some (encodeACLAutoApprovers [] (toStringSlice data.exitNode))⟩])
  ∧ (∀ plan : NodeattrModel, plan.target = TfList.malformed →
      nodeattrCreate ep t plan =
        ⟨[], .untouched,
         [⟨"Error reading target", "cannot convert List to []string"⟩]⟩) := by
  refine ⟨?_, ?_⟩
  · intro data h
    simp [autoApproversCreate, h, toStringSliceMap]
  · intro plan h
    simp [nodeattrCreate, buildNodeattrInput, h, listToStringSlice]

/-- Witness for C9 amended: the malformed routes map is sent as the
empty map with the call made, and a malformed nodeattr target surfaces
its conversion error with no call. -/
theorem conversion_failure_handling_witness :
    (autoApproversCreate "E" (fun _ => ⟨200, Json.obj []⟩)
      ⟨TfString.null, TfMap.malformed, []⟩).requests =
      [⟨.post, "E/autoapprovers", some (encodeACLAutoApprovers [] [])⟩] ∧
    nodeattrCreate "E" (fun _ => ⟨200, Json.obj []⟩)
      ⟨TfString.null, TfList.malformed, TfList.valid ["a"], TfString.null⟩ =
      ⟨[], .untouched,
       [⟨"Error reading target", "cannot convert List to []string"⟩]⟩ := by
  refine ⟨?_, ?_⟩
  · exact (conversion_failure_handling "E" (fun _ => ⟨200, Json.obj []⟩)).1
      ⟨TfString.null, TfMap.malformed, []⟩ rfl
  · exact (conversion_failure_handling "E" (fun _ => ⟨200, Json.obj []⟩)).2
      ⟨TfString.null, TfList.malformed, TfList.valid ["a"], TfString.null⟩ rfl

/-- C10: for the ID-keyed kinds (ssh, acl, nodeattr), a stored empty
identity makes Read, Update and Delete issue no HTTP request at all and
remove the resource from state with no error. -/
theorem empty_identity_skips_network (ep : String) (t : Transport) :
    (∀ s : NodeattrModel, s.id.valueString = "" →
      nodeattrRead ep t s = ⟨[], .removed, []⟩ ∧
      nodeattrDelete ep t s = ⟨[], .removed, []⟩ ∧
      ∀ plan, nodeattrUpdate ep t s plan = ⟨[], .removed, []⟩)
  ∧ (∀ s : SshModel, s.id.valueString = "" →
      sshRead ep t s = ⟨[], .removed, []⟩ ∧
      sshDelete ep t s = ⟨[], .removed, []⟩ ∧
      ∀ plan, sshUpdate ep t s plan = ⟨[], .removed, []⟩)
  ∧ (∀ s : AclModel, s.id.valueString = "" →
      aclRead ep t s = ⟨[], .removed, []⟩ ∧
      aclDelete ep t s = ⟨[], .removed, []⟩ ∧
      ∀ plan, aclUpdate ep t s plan = ⟨[], .removed, []⟩) := by
  refine ⟨?_, ?_, ?_⟩
  · intro s h
    exact ⟨by simp [nodeattrRead, h], by simp [nodeattrDelete, h],
      fun plan => by simp [nodeattrUpdate, h]⟩
  · intro s h
    exact ⟨by simp [sshRead, h], by simp [sshDelete, h],
      fun plan => by simp [sshUpdate, h]⟩
  · intro s h
    exact ⟨by simp [aclRead, h], by simp [aclDelete, h],
      fun plan => by simp [aclUpdate, h]⟩

/-- Witness for C10: an ssh state with a null ID and a nodeattr state
with an explicitly empty ID are dropped by Read with no request. -/
theorem empty_identity_skips_network_witness :
    sshRead "E" (fun _ => ⟨200, Json.obj []⟩)
      ⟨TfString.null, TfString.val "accept", [], [], [], TfString.null, []⟩ =
      ⟨[], .removed, []⟩ ∧
    nodeattrRead "E" (fun _ => ⟨200, Json.obj []⟩)
      ⟨TfString.val "", TfList.null, TfList.null, TfString.null⟩ =
      ⟨[], .removed, []⟩ := by
  refine ⟨?_, ?_⟩
  · exact ((empty_identity_skips_network "E" (fun _ => ⟨200, Json.obj []⟩)).2.1
      ⟨TfString.null, TfString.val "accept", [], [], [], TfString.null, []⟩ rfl).1
  · exact ((empty_identity_skips_network "E" (fun _ => ⟨200, Json.obj []⟩)).1
      ⟨TfString.val "", TfList.null, TfList.null, TfString.null⟩ rfl).1

end Tacl
